import Mathlib

/-!
# Verification of the dating-app matching platform

Shallow embedding of the repository `lanshaoxiong/dating-app` (Python backend).

The relational stores (`likes`, `passes`, `matches`, `profiles`, `photos`,
`prompts`, `user_preferences`, `users` tables) are embedded as Lean lists of
row structures mirroring the SQLAlchemy models in
`src/backend/app/models/matching.py`, `src/backend/app/models/profile.py`,
`src/backend/db/models/user.py` and the migration
`src/backend/alembic/versions/2024_12_26_1430-001_initial_schema.py`.
Service operations (`ProfileService`, `PhotoService`, `AuthService`) are
embedded as pure state-passing functions returning `Except`.

The matching engine itself (Swipe Processor, Match Formation, Exclusion Set
Resolver, Candidate Retrieval) has no implementation module in the shown
source tree — only its data model and storage constraints appear there
(`models/matching.py` notes that `user1_id < user2_id` is enforced in
application logic).  Those operations are therefore modelled from the spec
(sections 4.2-4.5); each such definition is marked `Modelled from the spec:`.

`created_at` / `updated_at` timestamp columns carry no information relevant
to the verified claims and are omitted from the row structures.
-/

namespace DatingApp

/-- Row of the `likes` table (`src/backend/app/models/matching.py`, class
`Like`): primary key `id`, `user_id` (who liked), `target_id` (who was
liked).  The migration declares `UniqueConstraint('user_id', 'target_id',
name='uq_like_user_target')`. -/
structure Like where
  id : String
  user_id : String
  target_id : String
deriving DecidableEq, Repr

/-- Row of the `passes` table (`src/backend/app/models/matching.py`, class
`Pass`): same shape as `Like`, with
`UniqueConstraint('user_id', 'target_id', name='uq_pass_user_target')`. -/
structure Pass where
  id : String
  user_id : String
  target_id : String
deriving DecidableEq, Repr

/-- Row of the `matches` table (`src/backend/app/models/matching.py`, class
`Match`): primary key `id`, `user1_id`, `user2_id`, with
`UniqueConstraint('user1_id', 'user2_id', name='uq_match_users')`; the model
comments that `user1_id < user2_id` is enforced in application logic. -/
structure Match where
  id : String
  user1_id : String
  user2_id : String
deriving DecidableEq, Repr

/-- The persistent state of the matching engine: the contents of the three
tables `likes`, `passes` and `matches`. -/
structure MatchingStore where
  likes : List Like
  passes : List Pass
  matchRows : List Match
deriving DecidableEq, Repr

def emptyStore : MatchingStore := ⟨[], [], []⟩

instance {ε α : Type} [DecidableEq ε] [DecidableEq α] : DecidableEq (Except ε α) :=
  fun x y =>
    match x, y with
    | .ok a, .ok b =>
      if h : a = b then .isTrue (by rw [h]) else .isFalse (fun hc => h (Except.ok.inj hc))
    | .error a, .error b =>
      if h : a = b then .isTrue (by rw [h]) else .isFalse (fun hc => h (Except.error.inj hc))
    | .ok _, .error _ => .isFalse (fun hc => Except.noConfusion hc)
    | .error _, .ok _ => .isFalse (fun hc => Except.noConfusion hc)

/-- Does a `likes` row with the given ordered pair exist?  (The store-level
read used both for duplicate suppression, honoring `uq_like_user_target`,
and for the reciprocity check on the index `ix_likes_target_user`.) -/
def likeExists (s : MatchingStore) (actor target : String) : Bool :=
  s.likes.any (fun l => l.user_id == actor && l.target_id == target)

/-- Does a `passes` row with the given ordered pair exist? -/
def passExists (s : MatchingStore) (actor target : String) : Bool :=
  s.passes.any (fun p => p.user_id == actor && p.target_id == target)

/-- Executable lexicographic comparison on character lists, agreeing with
the strict lexicographic order `List.Lex (· < ·)` (see `lexLtB_iff`). -/
def lexLtB : List Char → List Char → Bool
  | [], [] => false
  | [], _ :: _ => true
  | _ :: _, [] => false
  | c :: cs, d :: ds =>
    if c.toNat < d.toNat then true
    else if c.toNat = d.toNat then lexLtB cs ds
    else false

/-- Executable strict lexicographic order on identity strings, agreeing
with `<` on `String` (see `strLtB_iff`). -/
def strLtB (a b : String) : Bool :=
  lexLtB a.data b.data

/-- Modelled from the spec: "Canonicalizes the pair into (low_id, high_id)
by the total order" (§4.5, §3 Match); the repository's swipe-processor /
match-formation module is absent from the shown source, only the table
constraints are.  The total order is the lexicographic order on the identity
strings, computed by `strLtB`. -/
def canonPair (a b : String) : String × String :=
  if strLtB a b then (a, b) else (b, a)

/-- Look up the `matches` row for a canonicalized pair, via the unique key
`uq_match_users` on `(user1_id, user2_id)`. -/
def findMatchRow (s : MatchingStore) (lo hi : String) : Option Match :=
  s.matchRows.find? (fun m => m.user1_id == lo && m.user2_id == hi)

/-- Modelled from the spec: Match Formation (§4.5).  `formMatch(userA,
userB)` canonicalizes the pair, then performs the storage layer's atomic
"insert if absent, else report conflict" guarded by `uq_match_users`; on a
conflict it re-reads and returns the id of the Match that already exists. -/
def formMatch (s : MatchingStore) (newId a b : String) : MatchingStore × String :=
  match findMatchRow s (canonPair a b).1 (canonPair a b).2 with
  | some m => (s, m.id)
  | none =>
    ({ s with matchRows := ⟨newId, (canonPair a b).1, (canonPair a b).2⟩ :: s.matchRows },
      newId)

/-- The two swipe actions (§4.4). -/
inductive SwipeAction where
  | like
  | pass
deriving DecidableEq, Repr

/-- Modelled from the spec: `SwipeResult{matched: bool, match_id:
optional}` (§4.4). -/
structure SwipeResult where
  matched : Bool
  match_id : Option String
deriving DecidableEq, Repr

/-- Input-error taxonomy of the swipe processor (§4.4, §7). -/
inductive SwipeError where
  | invalidTarget
deriving DecidableEq, Repr

/-- Attempt to insert a directed Like edge; honoring `uq_like_user_target`,
a duplicate insert is suppressed without an error (§4.4). -/
def insertLikeIfAbsent (s : MatchingStore) (rowId actor target : String) :
    MatchingStore :=
  if likeExists s actor target then s
  else { s with likes := ⟨rowId, actor, target⟩ :: s.likes }

/-- Attempt to insert a directed Pass edge; honoring `uq_pass_user_target`,
a duplicate insert is suppressed without an error (§4.4). -/
def insertPassIfAbsent (s : MatchingStore) (rowId actor target : String) :
    MatchingStore :=
  if passExists s actor target then s
  else { s with passes := ⟨rowId, actor, target⟩ :: s.passes }

/-- Modelled from the spec: Swipe Processor (§4.4).  Rejects `actor_id ==
target_id` with `InvalidTarget`; inserts the directed edge honoring the
uniqueness invariant (idempotent when the edge exists); for a Pass returns
`matched=false`; for a Like checks the reverse Like and on reciprocity
invokes Match Formation.  `rowId` (resp. `matchId`) is the fresh primary key
used if a new edge (resp. Match) row is inserted. -/
def swipe (s : MatchingStore) (rowId matchId actor target : String)
    (action : SwipeAction) : Except SwipeError (MatchingStore × SwipeResult) :=
  if actor = target then .error .invalidTarget
  else
    match action with
    | .pass =>
      .ok (insertPassIfAbsent s rowId actor target, ⟨false, none⟩)
    | .like =>
      if likeExists (insertLikeIfAbsent s rowId actor target) target actor then
        .ok ((formMatch (insertLikeIfAbsent s rowId actor target) matchId actor target).1,
          ⟨true, some (formMatch (insertLikeIfAbsent s rowId actor target) matchId actor target).2⟩)
      else
        .ok (insertLikeIfAbsent s rowId actor target, ⟨false, none⟩)

/-- States of the matching store reachable from the empty store through the
swipe processor (the only writer of `likes`, `passes`, `matches` per §3
Lifecycle). -/
inductive Reachable : MatchingStore → Prop
  | empty : Reachable emptyStore
  | step (s s' : MatchingStore) (rowId matchId actor target : String)
      (action : SwipeAction) (r : SwipeResult) :
      Reachable s →
      swipe s rowId matchId actor target action = .ok (s', r) →
      Reachable s'

/-- Every stored Match row is canonically ordered: `user1_id < user2_id`. -/
def MatchPairOrdered (s : MatchingStore) : Prop :=
  ∀ m ∈ s.matchRows, m.user1_id < m.user2_id

/-- No two Match rows share the same ordered pair `(user1_id, user2_id)`
(the `uq_match_users` unique constraint). -/
def MatchPairUnique (s : MatchingStore) : Prop :=
  s.matchRows.Pairwise (fun m n => ¬(m.user1_id = n.user1_id ∧ m.user2_id = n.user2_id))

/-- No two Like rows share the same ordered pair `(user_id, target_id)`
(the `uq_like_user_target` unique constraint). -/
def LikePairUnique (s : MatchingStore) : Prop :=
  s.likes.Pairwise (fun l k => ¬(l.user_id = k.user_id ∧ l.target_id = k.target_id))

/-- No Like row is a self-loop. -/
def LikeNoSelf (s : MatchingStore) : Prop :=
  ∀ l ∈ s.likes, l.user_id ≠ l.target_id

/-- The conjunction of the storage invariants maintained by the swipe
processor. -/
def StoreInv (s : MatchingStore) : Prop :=
  MatchPairOrdered s ∧ MatchPairUnique s ∧ LikePairUnique s ∧ LikeNoSelf s

/-- Number of Like rows for a given ordered pair. -/
def countLikes (s : MatchingStore) (a t : String) : Nat :=
  s.likes.countP (fun l => l.user_id == a && l.target_id == t)

/-! ## Concurrent swipes (§4.4, §4.5, §5)

Two `swipe(·, ·, Like)` calls run concurrently against the shared store.
Per §5, correctness rests entirely on the storage layer's atomic
"insert if absent, else report conflict" semantics, so each call is
decomposed into its atomic storage operations and the scheduler may
interleave them arbitrarily. -/

/-- Modelled from the spec: the local state of one in-flight
`swipe(actor, target, Like)` call, decomposed into its atomic storage
operations (§4.4, §5).  `pc = 0`: about to insert its own Like edge
(atomic insert-if-absent under `uq_like_user_target`); `pc = 1`: about to
read the reverse Like; `pc = 2`: observed reciprocity, about to invoke
Match Formation (atomic insert-or-read under `uq_match_users`); `pc = 3`:
finished with result `res`. -/
structure ThreadSt where
  actor : String
  target : String
  rowId : String
  matchId : String
  pc : Nat
  res : Option SwipeResult
deriving DecidableEq, Repr

/-- One atomic storage operation of an in-flight Like swipe. -/
def stepLikeCall (s : MatchingStore) (t : ThreadSt) : MatchingStore × ThreadSt :=
  match t.pc with
  | 0 => (insertLikeIfAbsent s t.rowId t.actor t.target, { t with pc := 1 })
  | 1 =>
    if likeExists s t.target t.actor then (s, { t with pc := 2 })
    else (s, { t with pc := 3, res := some ⟨false, none⟩ })
  | 2 =>
    ((formMatch s t.matchId t.actor t.target).1,
      { t with pc := 3, res := some ⟨true, some (formMatch s t.matchId t.actor t.target).2⟩ })
  | _ => (s, t)

def threadDone (t : ThreadSt) : Bool := t.pc == 3

/-- Global state of the race: the shared store and the two in-flight calls. -/
structure RaceSt where
  store : MatchingStore
  t1 : ThreadSt
  t2 : ThreadSt
deriving DecidableEq, Repr

/-- One scheduler step: the chosen thread performs its next atomic storage
operation; if it has already finished, the other thread runs instead (so
every finite schedule realizes an interleaving, and every interleaving of
the two calls' atomic operations is some schedule). -/
def raceStep (rs : RaceSt) (pickFirst : Bool) : RaceSt :=
  if pickFirst then
    if threadDone rs.t1 then
      ⟨(stepLikeCall rs.store rs.t2).1, rs.t1, (stepLikeCall rs.store rs.t2).2⟩
    else
      ⟨(stepLikeCall rs.store rs.t1).1, (stepLikeCall rs.store rs.t1).2, rs.t2⟩
  else
    if threadDone rs.t2 then
      ⟨(stepLikeCall rs.store rs.t1).1, (stepLikeCall rs.store rs.t1).2, rs.t2⟩
    else
      ⟨(stepLikeCall rs.store rs.t2).1, rs.t1, (stepLikeCall rs.store rs.t2).2⟩

def runRace (rs : RaceSt) (sched : List Bool) : RaceSt :=
  sched.foldl raceStep rs

/-- Initial race state: empty store, `swipe(A,B,Like)` as thread 1 and
`swipe(B,A,Like)` as thread 2, with their fresh row / match ids. -/
def raceInit (A B l1 l2 m1 m2 : String) : RaceSt :=
  ⟨emptyStore, ⟨A, B, l1, m1, 0, none⟩, ⟨B, A, l2, m2, 0, none⟩⟩

/-- Inductive invariant of the two-sided Like race: thread 1 is
`swipe(A,B,Like)`, thread 2 is `swipe(B,A,Like)`.  It ties each thread's
program counter to the store contents and to the results reported so
far. -/
structure RaceInv (A B l1 l2 m1 m2 : String) (rs : RaceSt) : Prop where
  t1_actor : rs.t1.actor = A
  t1_target : rs.t1.target = B
  t1_rowId : rs.t1.rowId = l1
  t1_matchId : rs.t1.matchId = m1
  t2_actor : rs.t2.actor = B
  t2_target : rs.t2.target = A
  t2_rowId : rs.t2.rowId = l2
  t2_matchId : rs.t2.matchId = m2
  likes_sub : ∀ e ∈ rs.store.likes, e = ⟨l1, A, B⟩ ∨ e = ⟨l2, B, A⟩
  mem1 : (⟨l1, A, B⟩ : Like) ∈ rs.store.likes ↔ 1 ≤ rs.t1.pc
  mem2 : (⟨l2, B, A⟩ : Like) ∈ rs.store.likes ↔ 1 ≤ rs.t2.pc
  fin1 : rs.t1.res.isSome ↔ rs.t1.pc = 3
  fin2 : rs.t2.res.isSome ↔ rs.t2.pc = 3
  shape1 : ∀ r, rs.t1.res = some r → r = ⟨false, none⟩ ∨ ∃ z, r = ⟨true, some z⟩
  shape2 : ∀ r, rs.t2.res = some r → r = ⟨false, none⟩ ∨ ∃ z, r = ⟨true, some z⟩
  notBothFalse : ¬(rs.t1.res = some ⟨false, none⟩ ∧ rs.t2.res = some ⟨false, none⟩)
  matchPart :
    (rs.store.matchRows = [] ∧ (∀ z, rs.t1.res ≠ some ⟨true, z⟩) ∧
      (∀ z, rs.t2.res ≠ some ⟨true, z⟩)) ∨
    (∃ row : Match, rs.store.matchRows = [row] ∧
      row.user1_id = (canonPair A B).1 ∧ row.user2_id = (canonPair A B).2 ∧
      (∀ z, rs.t1.res = some ⟨true, z⟩ → z = some row.id) ∧
      (∀ z, rs.t2.res = some ⟨true, z⟩ → z = some row.id))

/-! ## Profile schema types (src/backend/profile/schemas.py)

Pydantic `Field` constraints become boolean validators; an input object is
"accepted" by the schema layer exactly when its validator returns `true`.
`float` fields (`latitude`, `longitude`, `max_distance`) are embedded as
rationals; string lengths use `String.length`, matching Python's `len` on
text. -/

/-- `ActivityLevel = Literal['low', 'medium', 'high']`. -/
inductive ActivityLevel where
  | low
  | medium
  | high
deriving DecidableEq, Repr

/-- `DistanceUnit = Literal['miles', 'kilometers']`. -/
inductive DistanceUnit where
  | miles
  | kilometers
deriving DecidableEq, Repr

/-- `Coordinates`: latitude in [-90, 90], longitude in [-180, 180]. -/
structure Coordinates where
  latitude : ℚ
  longitude : ℚ
deriving DecidableEq, Repr

/-- `PromptInput`: question 1..500 chars, answer 1..1000 chars, order ≥ 0. -/
structure PromptInput where
  question : String
  answer : String
  order : Int
deriving DecidableEq, Repr

/-- `UserPreferencesInput`: `min_age`, `max_age` in [0, 20] (defaults 0 and
20), `max_distance > 0` (default 25.0), with the `validate_age_range`
validator requiring `max_age >= min_age`. -/
structure UserPreferencesInput where
  min_age : Int
  max_age : Int
  max_distance : ℚ
  activity_level : ActivityLevel
  distance_unit : DistanceUnit
deriving DecidableEq, Repr

/-- `ProfileInput`: name 1..100 chars, age in [0, 20], bio 1..2000 chars,
optional location, prompts, optional preferences. -/
structure ProfileInput where
  name : String
  age : Int
  bio : String
  location : Option Coordinates
  prompts : List PromptInput
  preferences : Option UserPreferencesInput
deriving DecidableEq, Repr

/-- `ProfileUpdate`: every field optional, same bounds as `ProfileInput`
where present. -/
structure ProfileUpdate where
  name : Option String
  age : Option Int
  bio : Option String
  location : Option Coordinates
  prompts : Option (List PromptInput)
  preferences : Option UserPreferencesInput
deriving DecidableEq, Repr

def validCoordinates (c : Coordinates) : Bool :=
  decide (-90 ≤ c.latitude) && decide (c.latitude ≤ 90) &&
  decide (-180 ≤ c.longitude) && decide (c.longitude ≤ 180)

def validPromptInput (p : PromptInput) : Bool :=
  decide (1 ≤ p.question.length) && decide (p.question.length ≤ 500) &&
  decide (1 ≤ p.answer.length) && decide (p.answer.length ≤ 1000) &&
  decide (0 ≤ p.order)

/-- Pydantic validation of `UserPreferencesInput`: the per-field
`Field(ge=0, le=20)` / `Field(gt=0)` bounds plus the cross-field
`validate_age_range` check `max_age >= min_age`. -/
def validUserPreferencesInput (p : UserPreferencesInput) : Bool :=
  decide (0 ≤ p.min_age) && decide (p.min_age ≤ 20) &&
  decide (0 ≤ p.max_age) && decide (p.max_age ≤ 20) &&
  decide (0 < p.max_distance) &&
  decide (p.min_age ≤ p.max_age)

/-- Pydantic validation of `ProfileInput`, nested models included. -/
def validProfileInput (d : ProfileInput) : Bool :=
  decide (1 ≤ d.name.length) && decide (d.name.length ≤ 100) &&
  decide (0 ≤ d.age) && decide (d.age ≤ 20) &&
  decide (1 ≤ d.bio.length) && decide (d.bio.length ≤ 2000) &&
  (match d.location with
   | none => true
   | some c => validCoordinates c) &&
  d.prompts.all validPromptInput &&
  (match d.preferences with
   | none => true
   | some p => validUserPreferencesInput p)

/-- Pydantic validation of `ProfileUpdate`, nested models included. -/
def validProfileUpdate (d : ProfileUpdate) : Bool :=
  (match d.name with
   | none => true
   | some n => decide (1 ≤ n.length) && decide (n.length ≤ 100)) &&
  (match d.age with
   | none => true
   | some a => decide (0 ≤ a) && decide (a ≤ 20)) &&
  (match d.bio with
   | none => true
   | some b => decide (1 ≤ b.length) && decide (b.length ≤ 2000)) &&
  (match d.location with
   | none => true
   | some c => validCoordinates c) &&
  (match d.prompts with
   | none => true
   | some ps => ps.all validPromptInput) &&
  (match d.preferences with
   | none => true
   | some p => validUserPreferencesInput p)

/-! ## Candidate Retrieval and the Exclusion Set Resolver (§4.2, §4.3)

No implementation module for these exists in the shown source tree; they
are modelled from the spec. -/

/-- A candidate profile as seen by the retrieval pipeline: identity, age
and optional point location (profiles lacking a location are excluded from
radius queries, §4.1). -/
structure GeoProfile where
  id : String
  age : Int
  location : Option (ℚ × ℚ)
deriving DecidableEq, Repr

/-- Failure modes of Candidate Retrieval (§4.3, §7). -/
inductive RetrieveError where
  | locationRequired
  | preferencesMissing
deriving DecidableEq, Repr

/-- Modelled from the spec: "Convert `max_distance` to a canonical unit
using `distance_unit`" (§4.3 step 2); kilometers is the canonical unit,
one mile being 1.60934 km. -/
def toKilometers (d : ℚ) (u : DistanceUnit) : ℚ :=
  match u with
  | .miles => d * (160934 / 100000)
  | .kilometers => d

/-- Modelled from the spec: the Exclusion Set Resolver (§4.2),
`resolve(user_id)` membership test: the exclusion set is
{user_id} ∪ {t : Like(user_id→t)} ∪ {t : Pass(user_id→t)} ∪
{t : Match(user_id,t)}. -/
def resolveExcluded (ms : MatchingStore) (user_id t : String) : Bool :=
  user_id == t ||
  ms.likes.any (fun l => l.user_id == user_id && l.target_id == t) ||
  ms.passes.any (fun p => p.user_id == user_id && p.target_id == t) ||
  ms.matchRows.any (fun m =>
    (m.user1_id == user_id && m.user2_id == t) ||
    (m.user2_id == user_id && m.user1_id == t))

/-- The deterministic candidate order (§4.3 step 6): ascending distance
from the requester, tie-broken by identity (via the executable
lexicographic order `strLtB`). -/
def candLE (x y : ℚ × String) : Prop :=
  x.1 < y.1 ∨ (x.1 = y.1 ∧ (strLtB x.2 y.2 = true ∨ x.2 = y.2))

instance : DecidableRel candLE :=
  fun x y => decidable_of_iff (x.1 < y.1 ∨ (x.1 = y.1 ∧ (strLtB x.2 y.2 = true ∨ x.2 = y.2))) Iff.rfl

/-- The strict "after the cursor" test for pagination (§4.3 step 7): the
next page starts strictly after the cursor's (distance, identity) pair. -/
def afterCursor (c x : ℚ × String) : Bool :=
  decide (c.1 < x.1) || (decide (c.1 = x.1) && strLtB c.2 x.2)

/-- Modelled from the spec: Candidate Retrieval (§4.3),
`retrieve(user_id, page_cursor, page_size)`.  `dist` is the Geospatial
Index's metric (§4.1, an external collaborator); `profiles` the stored
candidate profiles; `ms` the matching store read by the Exclusion Set
Resolver.  Steps: strict preferences load, unit conversion, radius query
(profiles without location excluded; `LocationRequired` when the requester
has no location), requester-preference age filter (inclusive), exclusion
subtraction, deterministic (distance, identity) order, cursor pagination.
Returns the page and the cursor of its last entry. -/
def retrieve (dist : ℚ × ℚ → ℚ × ℚ → ℚ) (profiles : List GeoProfile)
    (ms : MatchingStore) (user_id : String) (loc : Option (ℚ × ℚ))
    (prefs : Option UserPreferencesInput) (cursor : Option (ℚ × String))
    (pageSize : Nat) :
    Except RetrieveError (List (ℚ × String) × Option (ℚ × String)) :=
  match prefs with
  | none => .error .preferencesMissing
  | some pr =>
    match loc with
    | none => .error .locationRequired
    | some origin =>
      let radius := toKilometers pr.max_distance pr.distance_unit
      let inRadius : List (ℚ × GeoProfile) := profiles.filterMap (fun p =>
        match p.location with
        | none => none
        | some l => if dist origin l ≤ radius then some (dist origin l, p) else none)
      let aged := inRadius.filter (fun dp =>
        decide (pr.min_age ≤ dp.2.age) && decide (dp.2.age ≤ pr.max_age))
      let nonExcluded := aged.filter (fun dp => !resolveExcluded ms user_id dp.2.id)
      let ordered := (nonExcluded.map (fun dp => (dp.1, dp.2.id))).insertionSort candLE
      let page := (match cursor with
        | none => ordered
        | some c => ordered.filter (fun x => afterCursor c x)).take pageSize
      .ok (page, page.getLast?)

/-! ## Profile / photo / preferences tables and ProfileService

Rows mirror `src/backend/app/models/profile.py` and the migration;
the service functions mirror `src/backend/profile/profile_service.py`.
Fresh `uuid.uuid4()` primary keys are passed in as parameters. -/

/-- Row of the `users` table (`src/backend/db/models/user.py`). -/
structure UserRow where
  id : String
  email : String
  password_hash : String
deriving DecidableEq, Repr

/-- Row of the `profiles` table (class `Profile`): unique `user_id`,
name, age, bio, optional point location. -/
structure ProfileRow where
  id : String
  user_id : String
  name : String
  age : Int
  bio : String
  location : Option Coordinates
deriving DecidableEq, Repr

/-- Row of the `photos` table (class `Photo`). -/
structure PhotoRow where
  id : String
  profile_id : String
  url : String
  order : Int
deriving DecidableEq, Repr

/-- Row of the `prompts` table (class `Prompt`). -/
structure PromptRow where
  id : String
  profile_id : String
  question : String
  answer : String
  order : Int
deriving DecidableEq, Repr

/-- Row of the `user_preferences` table (class `UserPreferences`):
1:1 with `profiles` via the unique `profile_id`. -/
structure UserPreferencesRow where
  id : String
  profile_id : String
  min_age : Int
  max_age : Int
  max_distance : ℚ
  activity_level : ActivityLevel
  distance_unit : DistanceUnit
deriving DecidableEq, Repr

/-- The profile-side database state. -/
structure ProfileDB where
  profiles : List ProfileRow
  photos : List PhotoRow
  prompts : List PromptRow
  user_preferences : List UserPreferencesRow
deriving DecidableEq, Repr

/-- `src/backend/profile/exceptions.py`. -/
inductive ProfileError where
  | profileNotFound
  | profileAlreadyExists
  | invalidPhotoCount
deriving DecidableEq, Repr

/-- `ProfileService.create_profile` (profile_service.py 31-96): rejects a
second profile for the same user, then inserts the profile row, one prompt
row per input prompt, and — when given — the preferences row, copying the
validated input fields verbatim.  `profileId`, `prefId`, `promptIds` stand
for the `uuid.uuid4()` calls. -/
def create_profile (db : ProfileDB) (user_id : String) (data : ProfileInput)
    (profileId prefId : String) (promptIds : List String) :
    Except ProfileError ProfileDB :=
  match db.profiles.find? (fun p => p.user_id == user_id) with
  | some _ => .error .profileAlreadyExists
  | none =>
    let profile : ProfileRow :=
      ⟨profileId, user_id, data.name, data.age, data.bio, data.location⟩
    let newPrompts := (data.prompts.zip promptIds).map (fun z =>
      PromptRow.mk z.2 profileId z.1.question z.1.answer z.1.order)
    let newPrefs : List UserPreferencesRow :=
      match data.preferences with
      | none => []
      | some pr =>
        [⟨prefId, profileId, pr.min_age, pr.max_age, pr.max_distance,
          pr.activity_level, pr.distance_unit⟩]
    .ok { db with
      profiles := db.profiles ++ [profile],
      prompts := db.prompts ++ newPrompts,
      user_preferences := db.user_preferences ++ newPrefs }

/-- `ProfileService.update_profile` (profile_service.py 98-178): loads the
profile (`ProfileNotFoundError` if absent), overwrites only the provided
fields, replaces all prompt rows when prompts are provided, and updates the
existing preferences row in place — or creates it — when preferences are
provided. -/
def update_profile (db : ProfileDB) (user_id : String) (data : ProfileUpdate)
    (prefId : String) (promptIds : List String) :
    Except ProfileError ProfileDB :=
  match db.profiles.find? (fun p => p.user_id == user_id) with
  | none => .error .profileNotFound
  | some prof =>
    let prof' : ProfileRow :=
      { prof with
        name := data.name.getD prof.name,
        age := data.age.getD prof.age,
        bio := data.bio.getD prof.bio,
        location := match data.location with
          | none => prof.location
          | some c => some c }
    let profiles' := db.profiles.map (fun q => if q.id == prof.id then prof' else q)
    let prompts' := match data.prompts with
      | none => db.prompts
      | some ps =>
        db.prompts.filter (fun pr => !(pr.profile_id == prof.id)) ++
          (ps.zip promptIds).map (fun z =>
            PromptRow.mk z.2 prof.id z.1.question z.1.answer z.1.order)
    let prefs' := match data.preferences with
      | none => db.user_preferences
      | some p =>
        if db.user_preferences.any (fun r => r.profile_id == prof.id) then
          db.user_preferences.map (fun r =>
            if r.profile_id == prof.id then
              { r with
                min_age := p.min_age,
                max_age := p.max_age,
                max_distance := p.max_distance,
                activity_level := p.activity_level,
                distance_unit := p.distance_unit }
            else r)
        else
          db.user_preferences ++
            [⟨prefId, prof.id, p.min_age, p.max_age, p.max_distance,
              p.activity_level, p.distance_unit⟩]
    .ok { db with
      profiles := profiles',
      prompts := prompts',
      user_preferences := prefs' }

/-- `ProfileService.delete_profile` (profile_service.py 208-227): loads the
profile (`ProfileNotFoundError` if absent) and deletes it; the
`cascade="all, delete-orphan"` relationships and `ondelete="CASCADE"`
foreign keys remove all photos, prompts and preferences of that
profile. -/
def delete_profile (db : ProfileDB) (user_id : String) :
    Except ProfileError ProfileDB :=
  match db.profiles.find? (fun p => p.user_id == user_id) with
  | none => .error .profileNotFound
  | some prof =>
    .ok { profiles := db.profiles.filter (fun q => !(q.id == prof.id)),
          photos := db.photos.filter (fun ph => !(ph.profile_id == prof.id)),
          prompts := db.prompts.filter (fun pr => !(pr.profile_id == prof.id)),
          user_preferences :=
            db.user_preferences.filter (fun r => !(r.profile_id == prof.id)) }

/-- The write-time invariant of the `user_preferences` table claimed by the
spec: `min_age ≤ max_age` on every stored row. -/
def PrefsAgeInv (db : ProfileDB) : Prop :=
  ∀ r ∈ db.user_preferences, r.min_age ≤ r.max_age

/-! ## PhotoService (src/backend/photo/photo_service.py) -/

/-- `src/backend/photo/exceptions.py`, plus `ValueError` from the storage
collaborator's `validate_file`, represented as `invalidFile`. -/
inductive PhotoError where
  | photoNotFound
  | invalidPhotoCount
  | profileNotFound
  | invalidFile
deriving DecidableEq, Repr

/-- `PhotoService.MIN_PHOTOS = 2`. -/
def MIN_PHOTOS : Nat := 2

/-- `PhotoService.MAX_PHOTOS = 6`. -/
def MAX_PHOTOS : Nat := 6

/-- Number of photo rows of a profile. -/
def photoCount (db : ProfileDB) (profile_id : String) : Nat :=
  (db.photos.filter (fun ph => ph.profile_id == profile_id)).length

/-- `PhotoService.upload_photo` (photo_service.py 28-95): loads the
profile, rejects when it already has `MAX_PHOTOS` photos (`len(existing)
>= MAX_PHOTOS`), validates the file via the storage collaborator (`fileOk`
stands for `validate_file`; `url` for the storage upload's URL), then
inserts the photo at order `len(existing)`. -/
def upload_photo (db : ProfileDB) (user_id photoId url : String)
    (fileOk : Bool) : Except PhotoError (ProfileDB × PhotoRow) :=
  match db.profiles.find? (fun p => p.user_id == user_id) with
  | none => .error .profileNotFound
  | some prof =>
    if MAX_PHOTOS ≤ (db.photos.filter (fun ph => ph.profile_id == prof.id)).length then
      .error .invalidPhotoCount
    else if !fileOk then
      .error .invalidFile
    else
      .ok ({ db with
              photos := db.photos ++
                [⟨photoId, prof.id, url,
                  ((db.photos.filter (fun ph => ph.profile_id == prof.id)).length : Int)⟩] },
        ⟨photoId, prof.id, url,
          ((db.photos.filter (fun ph => ph.profile_id == prof.id)).length : Int)⟩)

/-- `PhotoService.delete_photo` (photo_service.py 97-150): loads the
profile and the photo (by id and profile), rejects when the profile has
`MIN_PHOTOS` or fewer photos (`len(existing) <= MIN_PHOTOS`), then deletes
that row and decrements the order of the profile's photos that followed
it. -/
def delete_photo (db : ProfileDB) (user_id photo_id : String) :
    Except PhotoError ProfileDB :=
  match db.profiles.find? (fun p => p.user_id == user_id) with
  | none => .error .profileNotFound
  | some prof =>
    match db.photos.find? (fun ph => ph.id == photo_id && ph.profile_id == prof.id) with
    | none => .error .photoNotFound
    | some photo =>
      if (db.photos.filter (fun ph => ph.profile_id == prof.id)).length ≤ MIN_PHOTOS then
        .error .invalidPhotoCount
      else
        .ok { db with
          photos :=
            (db.photos.eraseP
                (fun ph => ph.id == photo_id && ph.profile_id == prof.id)).map
              (fun ph =>
                if ph.profile_id == prof.id && decide (photo.order < ph.order) then
                  { ph with order := ph.order - 1 }
                else ph) }

/-! ## AuthService.login (src/backend/auth/auth_service.py) -/

/-- The exception classes of `src/backend/auth/exceptions.py`. -/
inductive AuthErrorKind where
  | invalidCredentials
  | userAlreadyExists
  | invalidToken
  | userNotFound
deriving DecidableEq, Repr

/-- An authentication failure: the exception class raised and the message
it carries. -/
structure AuthError where
  kind : AuthErrorKind
  message : String
deriving DecidableEq, Repr

/-- `AuthToken` (auth/schemas.py): `access_token`, `token_type` defaulting
to "bearer", `expires_in` in seconds. -/
structure AuthToken where
  access_token : String
  token_type : String
  expires_in : Int
deriving DecidableEq, Repr

/-- `AuthService.login` (auth_service.py 67-99): looks the user up by
email; raises `InvalidCredentialsError("Invalid email or password")` when
no user with that email exists, and the same error kind with the same
message when the password check fails; otherwise returns a JWT access
token valid for `ACCESS_TOKEN_EXPIRE_MINUTES * 60` seconds.
`verifyPassword` stands for `bcrypt.checkpw`, `createToken` for the JWT
encoding `_create_access_token`, and `expireMinutes` for
`settings.ACCESS_TOKEN_EXPIRE_MINUTES` (external collaborators and
configuration). -/
def login (verifyPassword : String → String → Bool)
    (createToken : String → String) (expireMinutes : Int)
    (users : List UserRow) (email password : String) :
    Except AuthError AuthToken :=
  match users.find? (fun u => u.email == email) with
  | none => .error ⟨.invalidCredentials, "Invalid email or password"⟩
  | some user =>
    if !verifyPassword password user.password_hash then
      .error ⟨.invalidCredentials, "Invalid email or password"⟩
    else
      .ok ⟨createToken user.id, "bearer", expireMinutes * 60⟩

theorem char_lt_iff (c d : Char) : c < d ↔ c.toNat < d.toNat := Iff.rfl

theorem char_eq_iff (c d : Char) : c = d ↔ c.toNat = d.toNat := by
  constructor
  · intro h; rw [h]
  · intro h
    exact Char.ext (UInt32.ext h)

theorem lexLtB_iff : ∀ cs ds : List Char, lexLtB cs ds = true ↔ List.Lex (· < ·) cs ds
  | [], [] => by
    simp [lexLtB]
  | [], _ :: _ => by
    simp only [lexLtB, true_iff]
    exact List.Lex.nil
  | _ :: _, [] => by
    simp [lexLtB]
  | c :: cs, d :: ds => by
    unfold lexLtB
    by_cases h1 : c.toNat < d.toNat
    · simp only [h1, if_true, true_iff]
      exact List.Lex.rel ((char_lt_iff c d).mpr h1)
    · by_cases h2 : c.toNat = d.toNat
      · have hcd : c = d := (char_eq_iff c d).mpr h2
        subst hcd
        simp only [h1, h2, if_false, if_true, lexLtB_iff cs ds]
        exact List.Lex.cons_iff.symm
      · simp only [h1, h2, if_false, Bool.false_eq_true, false_iff]
        intro hlex
        cases hlex with
        | cons h => exact h2 rfl
        | rel h => exact h1 ((char_lt_iff c d).mp h)

theorem strLtB_iff (a b : String) : strLtB a b = true ↔ a < b := by
  rw [String.lt_iff_toList_lt]
  exact lexLtB_iff a.data b.data

theorem canonPair_lt {a b : String} (h : a ≠ b) :
    (canonPair a b).1 < (canonPair a b).2 := by
  unfold canonPair
  rcases hs : strLtB a b with _ | _
  · rw [if_neg (by simp)]
    have hnlt : ¬a < b := fun hc => by simp [(strLtB_iff a b).mpr hc] at hs
    exact lt_of_le_of_ne (le_of_not_lt hnlt) (Ne.symm h)
  · rw [if_pos rfl]
    exact (strLtB_iff a b).mp hs

theorem canonPair_comm (a b : String) : canonPair a b = canonPair b a := by
  unfold canonPair
  rcases lt_trichotomy a b with h | h | h
  · rw [if_pos ((strLtB_iff a b).mpr h),
      if_neg (by rw [strLtB_iff]; exact fun hc => absurd hc (not_lt_of_gt h))]
  · subst h
    rfl
  · rw [if_neg (by rw [strLtB_iff]; exact fun hc => absurd hc (not_lt_of_gt h)),
      if_pos ((strLtB_iff b a).mpr h)]

theorem formMatch_likes (s : MatchingStore) (i a b : String) :
    (formMatch s i a b).1.likes = s.likes := by
  unfold formMatch
  rcases h : findMatchRow s (canonPair a b).1 (canonPair a b).2 with _ | m <;> simp [h]

theorem formMatch_ordered {s : MatchingStore} {i a b : String} (hab : a ≠ b)
    (h : MatchPairOrdered s) : MatchPairOrdered (formMatch s i a b).1 := by
  unfold formMatch
  rcases hf : findMatchRow s (canonPair a b).1 (canonPair a b).2 with _ | m
  · simp only [hf, MatchPairOrdered, List.mem_cons]
    rintro m (rfl | hm)
    · exact canonPair_lt hab
    · exact h m hm
  · simpa only [hf] using h

theorem formMatch_unique {s : MatchingStore} {i a b : String}
    (h : MatchPairUnique s) : MatchPairUnique (formMatch s i a b).1 := by
  unfold formMatch
  rcases hf : findMatchRow s (canonPair a b).1 (canonPair a b).2 with _ | m
  · simp only [hf, MatchPairUnique]
    refine List.Pairwise.cons ?_ h
    intro n hn hc
    have := List.find?_eq_none.mp hf n hn
    simp only [Bool.and_eq_true, beq_iff_eq, not_and] at this
    exact this hc.1.symm hc.2.symm
  · simpa only [hf] using h

theorem formMatch_storeInv {s : MatchingStore} {i a b : String} (hab : a ≠ b)
    (h : StoreInv s) : StoreInv (formMatch s i a b).1 := by
  obtain ⟨h1, h2, h3, h4⟩ := h
  refine ⟨formMatch_ordered hab h1, formMatch_unique h2, ?_, ?_⟩
  · unfold LikePairUnique
    rw [formMatch_likes]
    exact h3
  · unfold LikeNoSelf
    rw [formMatch_likes]
    exact h4

theorem insertLike_storeInv {s : MatchingStore} {rowId a t : String} (hat : a ≠ t)
    (h : StoreInv s) : StoreInv (insertLikeIfAbsent s rowId a t) := by
  unfold insertLikeIfAbsent
  rcases hnew : likeExists s a t with _ | _
  · rw [if_neg (by simp)]
    obtain ⟨h1, h2, h3, h4⟩ := h
    refine ⟨h1, h2, ?_, ?_⟩
    · refine List.Pairwise.cons ?_ h3
      intro k hk hc
      have := List.any_eq_false.mp hnew k hk
      simp only [Bool.and_eq_true, beq_iff_eq, not_and] at this
      exact this hc.1.symm hc.2.symm
    · simp only [LikeNoSelf, List.mem_cons]
      rintro l (rfl | hl)
      · exact hat
      · exact h4 l hl
  · rw [if_pos rfl]
    exact h

theorem insertPass_storeInv {s : MatchingStore} {rowId a t : String}
    (h : StoreInv s) : StoreInv (insertPassIfAbsent s rowId a t) := by
  unfold insertPassIfAbsent
  obtain ⟨h1, h2, h3, h4⟩ := h
  split
  · exact ⟨h1, h2, h3, h4⟩
  · exact ⟨h1, h2, h3, h4⟩

theorem swipe_preserves_storeInv {s s' : MatchingStore}
    {rowId matchId a t : String} {act : SwipeAction} {r : SwipeResult}
    (hInv : StoreInv s) (h : swipe s rowId matchId a t act = .ok (s', r)) :
    StoreInv s' := by
  by_cases hat : a = t
  · simp [swipe, hat] at h
  · cases act with
    | pass =>
      simp only [swipe, if_neg hat, Except.ok.injEq, Prod.mk.injEq] at h
      obtain ⟨h', -⟩ := h
      rw [← h']
      exact insertPass_storeInv hInv
    | like =>
      simp only [swipe, if_neg hat] at h
      rcases hl2 : likeExists (insertLikeIfAbsent s rowId a t) t a with _ | _ <;>
          rw [hl2] at h <;>
          simp only [Bool.false_eq_true, if_false, if_true,
            Except.ok.injEq, Prod.mk.injEq] at h <;>
          obtain ⟨h', -⟩ := h <;> rw [← h']
      · exact insertLike_storeInv hat hInv
      · exact formMatch_storeInv hat (insertLike_storeInv hat hInv)

theorem reachable_storeInv {s : MatchingStore} (hs : Reachable s) : StoreInv s := by
  induction hs with
  | empty =>
    refine ⟨?_, ?_, ?_, ?_⟩ <;> simp [MatchPairOrdered, MatchPairUnique,
      LikePairUnique, LikeNoSelf, emptyStore]
  | step s s' rowId matchId actor target action r _ hok ih =>
    exact swipe_preserves_storeInv ih hok

theorem unordered_unique_of_inv {s : MatchingStore}
    (hord : MatchPairOrdered s) (huniq : MatchPairUnique s) :
    ∀ m ∈ s.matchRows, ∀ n ∈ s.matchRows,
      (m.user1_id = n.user1_id ∧ m.user2_id = n.user2_id) ∨
      (m.user1_id = n.user2_id ∧ m.user2_id = n.user1_id) → m = n := by
  intro m hm n hn hc
  by_contra hne
  have hsymm : Symmetric (fun m n : Match =>
      ¬(m.user1_id = n.user1_id ∧ m.user2_id = n.user2_id)) := by
    intro x y hxy hc
    exact hxy ⟨hc.1.symm, hc.2.symm⟩
  have hR := List.Pairwise.forall hsymm huniq hm hn hne
  rcases hc with hc | hc
  · exact hR hc
  · have hmo := hord m hm
    have hno := hord n hn
    rw [hc.1, hc.2] at hmo
    exact lt_irrefl _ (hno.trans hmo)

theorem likeExists_eq_of_likes {s s' : MatchingStore} (h : s.likes = s'.likes)
    (u v : String) : likeExists s u v = likeExists s' u v := by
  unfold likeExists
  rw [h]

theorem insertLike_self (s : MatchingStore) (r a t : String) :
    likeExists (insertLikeIfAbsent s r a t) a t = true := by
  unfold insertLikeIfAbsent
  rcases h : likeExists s a t with _ | _
  · rw [if_neg (by simp)]
    simp [likeExists]
  · rw [if_pos rfl]
    exact h

theorem insertLike_rev {a t : String} (s : MatchingStore) (r : String)
    (hat : a ≠ t) : likeExists (insertLikeIfAbsent s r a t) t a = likeExists s t a := by
  unfold insertLikeIfAbsent
  rcases h : likeExists s a t with _ | _
  · rw [if_neg (by simp)]
    simp [likeExists, hat]
  · rw [if_pos rfl]

theorem insertLike_count (s : MatchingStore) (r a t : String) :
    countLikes (insertLikeIfAbsent s r a t) a t = max (countLikes s a t) 1 := by
  unfold insertLikeIfAbsent countLikes
  rcases h : likeExists s a t with _ | _
  · rw [if_neg (by simp)]
    unfold likeExists at h
    have h0 : s.likes.countP (fun l => l.user_id == a && l.target_id == t) = 0 := by
      rw [List.countP_eq_zero]
      exact List.any_eq_false.mp h
    simp [List.countP_cons, h0]
  · rw [if_pos rfl]
    unfold likeExists at h
    obtain ⟨l, hl, hp⟩ := List.any_eq_true.mp h
    have hpos : 0 < s.likes.countP (fun l => l.user_id == a && l.target_id == t) :=
      List.countP_pos_iff.mpr ⟨l, hl, hp⟩
    omega

/-- Inversion of a successful Like swipe: the resulting `likes` table and
the reported `matched` flag. -/
theorem swipe_like_ok_likes {s s' : MatchingStore} {rowId matchId a t : String}
    {r : SwipeResult} (hat : a ≠ t)
    (h : swipe s rowId matchId a t .like = .ok (s', r)) :
    s'.likes = (insertLikeIfAbsent s rowId a t).likes ∧
    r.matched = likeExists (insertLikeIfAbsent s rowId a t) t a := by
  simp only [swipe, if_neg hat] at h
  rcases hl2 : likeExists (insertLikeIfAbsent s rowId a t) t a with _ | _ <;>
      rw [hl2] at h <;>
      simp only [Bool.false_eq_true, if_false, if_true,
        Except.ok.injEq, Prod.mk.injEq] at h <;>
      obtain ⟨h', hr⟩ := h <;> rw [← h', ← hr]
  · exact ⟨rfl, rfl⟩
  · exact ⟨formMatch_likes _ _ _ _, rfl⟩

/-- C1: in every reachable state of the matching store, every Match record
in the `matches` table has `user1_id` strictly less than `user2_id` under
the total (lexicographic) order on identity strings, no two Match records
share the ordered pair `(user1_id, user2_id)`, and any two Match records
for the same unordered pair of users are the same record. -/
theorem c1_match_canonical_and_unique (s : MatchingStore) (hs : Reachable s) :
    MatchPairOrdered s ∧ MatchPairUnique s ∧
    ∀ m ∈ s.matchRows, ∀ n ∈ s.matchRows,
      ((m.user1_id = n.user1_id ∧ m.user2_id = n.user2_id) ∨
       (m.user1_id = n.user2_id ∧ m.user2_id = n.user1_id)) → m = n := by
  obtain ⟨h1, h2, -, -⟩ := reachable_storeInv hs
  exact ⟨h1, h2, unordered_unique_of_inv h1 h2⟩

/-- Witness for C1 at the store reached by `swipe(A,B,Like)` then
`swipe(B,A,Like)` from the empty store, which holds one Match row. -/
theorem c1_match_canonical_and_unique_witness :
    MatchPairOrdered ⟨[⟨"l2", "B", "A"⟩, ⟨"l1", "A", "B"⟩], [], [⟨"m2", "A", "B"⟩]⟩ ∧
    MatchPairUnique ⟨[⟨"l2", "B", "A"⟩, ⟨"l1", "A", "B"⟩], [], [⟨"m2", "A", "B"⟩]⟩ ∧
    ∀ m ∈ (MatchingStore.mk [⟨"l2", "B", "A"⟩, ⟨"l1", "A", "B"⟩] [] [⟨"m2", "A", "B"⟩]).matchRows,
      ∀ n ∈ (MatchingStore.mk [⟨"l2", "B", "A"⟩, ⟨"l1", "A", "B"⟩] [] [⟨"m2", "A", "B"⟩]).matchRows,
      ((m.user1_id = n.user1_id ∧ m.user2_id = n.user2_id) ∨
       (m.user1_id = n.user2_id ∧ m.user2_id = n.user1_id)) → m = n :=
  c1_match_canonical_and_unique _
    (Reachable.step ⟨[⟨"l1", "A", "B"⟩], [], []⟩ _ "l2" "m2" "B" "A" .like
      ⟨true, some "m2"⟩
      (Reachable.step emptyStore _ "l1" "m1" "A" "B" .like ⟨false, none⟩
        Reachable.empty rfl)
      rfl)

/-- C2: in every reachable state of the likes store there is at most one
Like record per ordered pair `(user_id, target_id)` and no Like record is a
self-loop; moreover a swipe with `actor_id == target_id` is rejected with
`InvalidTarget` (for both actions, in any state). -/
theorem c2_like_unique_no_self :
    (∀ s : MatchingStore, Reachable s → LikePairUnique s ∧ LikeNoSelf s) ∧
    (∀ (s : MatchingStore) (rowId matchId a : String) (act : SwipeAction),
      swipe s rowId matchId a a act = .error .invalidTarget) := by
  constructor
  · intro s hs
    obtain ⟨-, -, h3, h4⟩ := reachable_storeInv hs
    exact ⟨h3, h4⟩
  · intro s rowId matchId a act
    simp [swipe]

/-- Witness for C2 at the store reached by one Like swipe, plus the
rejection of a concrete self-swipe. -/
theorem c2_like_unique_no_self_witness :
    (LikePairUnique ⟨[⟨"l1", "A", "B"⟩], [], []⟩ ∧
     LikeNoSelf ⟨[⟨"l1", "A", "B"⟩], [], []⟩) ∧
    swipe emptyStore "l9" "m9" "C" "C" .like = .error .invalidTarget :=
  ⟨c2_like_unique_no_self.1 _
    (Reachable.step emptyStore _ "l1" "m1" "A" "B" .like ⟨false, none⟩
      Reachable.empty rfl),
   c2_like_unique_no_self.2 emptyStore "l9" "m9" "C" .like⟩

/-- C4: for distinct users `A ≠ B`, issuing `swipe(A,B,Like)` twice in
succession reports the same `matched` outcome both times, the second call
leaves the `likes` table unchanged, and the pair `(A,B)` ends with exactly
`max(initial count, 1)` Like rows — so no duplicate Like row is ever
created. -/
theorem c4_swipe_like_twice (s s1 s2 : MatchingStore)
    (id1 id2 mid1 mid2 A B : String) (r1 r2 : SwipeResult) (hAB : A ≠ B)
    (h1 : swipe s id1 mid1 A B .like = .ok (s1, r1))
    (h2 : swipe s1 id2 mid2 A B .like = .ok (s2, r2)) :
    r1.matched = r2.matched ∧ s2.likes = s1.likes ∧
    countLikes s2 A B = max (countLikes s A B) 1 := by
  obtain ⟨hs1, hr1⟩ := swipe_like_ok_likes hAB h1
  obtain ⟨hs2, hr2⟩ := swipe_like_ok_likes hAB h2
  have hexists : likeExists s1 A B = true := by
    rw [likeExists_eq_of_likes hs1]
    exact insertLike_self s id1 A B
  have hins2 : insertLikeIfAbsent s1 id2 A B = s1 := by
    unfold insertLikeIfAbsent
    rw [hexists, if_pos rfl]
  rw [hins2] at hs2 hr2
  refine ⟨?_, hs2, ?_⟩
  · rw [hr1, hr2, likeExists_eq_of_likes hs1]
  · unfold countLikes
    rw [hs2, hs1]
    exact insertLike_count s id1 A B

/-- Witness for C4: the double Like `swipe("A","B")` from the empty store;
both calls report `matched = false` and a single Like row results. -/
theorem c4_swipe_like_twice_witness :
    (SwipeResult.mk false none).matched = (SwipeResult.mk false none).matched ∧
    (MatchingStore.mk [⟨"l1", "A", "B"⟩] [] []).likes =
      (MatchingStore.mk [⟨"l1", "A", "B"⟩] [] []).likes ∧
    countLikes ⟨[⟨"l1", "A", "B"⟩], [], []⟩ "A" "B" = max (countLikes emptyStore "A" "B") 1 :=
  c4_swipe_like_twice emptyStore ⟨[⟨"l1", "A", "B"⟩], [], []⟩
    ⟨[⟨"l1", "A", "B"⟩], [], []⟩ "l1" "l2" "m1" "m2" "A" "B"
    ⟨false, none⟩ ⟨false, none⟩ (by decide) rfl rfl

/-- C3 counterexample: in the fully sequential interleaving (thread 1 runs
to completion before thread 2 starts) the two calls do not report the same
`match_id`: the first call reports `matched = false` with no id, the second
reports the Match's id — even though exactly one Match row exists at the
end. -/
theorem c3_counterexample :
    (runRace (raceInit "A" "B" "l1" "l2" "m1" "m2")
      [true, true, true, false, false, false]).t1.res = some ⟨false, none⟩ ∧
    (runRace (raceInit "A" "B" "l1" "l2" "m1" "m2")
      [true, true, true, false, false, false]).t2.res = some ⟨true, some "m2"⟩ ∧
    (runRace (raceInit "A" "B" "l1" "l2" "m1" "m2")
      [true, true, true, false, false, false]).store.matchRows = [⟨"m2", "A", "B"⟩] ∧
    (runRace (raceInit "A" "B" "l1" "l2" "m1" "m2")
      [true, true, true, false, false, false]).t1.res ≠
      (runRace (raceInit "A" "B" "l1" "l2" "m1" "m2")
        [true, true, true, false, false, false]).t2.res := by
  refine ⟨rfl, rfl, rfl, ?_⟩
  decide

theorem like_rows_ne {A B l1 l2 : String} (hAB : A ≠ B) :
    (⟨l1, A, B⟩ : Like) ≠ ⟨l2, B, A⟩ :=
  fun h => hAB (congrArg Like.user_id h)

theorem likesHas_fst {A B l1 l2 : String} (hAB : A ≠ B) {L : List Like}
    (hsub : ∀ e ∈ L, e = ⟨l1, A, B⟩ ∨ e = ⟨l2, B, A⟩) :
    (L.any fun l => l.user_id == A && l.target_id == B) = true ↔
      (⟨l1, A, B⟩ : Like) ∈ L := by
  rw [List.any_eq_true]
  constructor
  · rintro ⟨e, he, hp⟩
    rcases hsub e he with rfl | rfl
    · exact he
    · simp only [Bool.and_eq_true, beq_iff_eq] at hp
      exact absurd hp.1 (Ne.symm hAB)
  · intro hmem
    exact ⟨_, hmem, by simp⟩

theorem likesHas_snd {A B l1 l2 : String} (hAB : A ≠ B) {L : List Like}
    (hsub : ∀ e ∈ L, e = ⟨l1, A, B⟩ ∨ e = ⟨l2, B, A⟩) :
    (L.any fun l => l.user_id == B && l.target_id == A) = true ↔
      (⟨l2, B, A⟩ : Like) ∈ L := by
  rw [List.any_eq_true]
  constructor
  · rintro ⟨e, he, hp⟩
    rcases hsub e he with rfl | rfl
    · simp only [Bool.and_eq_true, beq_iff_eq] at hp
      exact absurd hp.1 hAB
    · exact he
  · intro hmem
    exact ⟨_, hmem, by simp⟩

theorem raceInv_step1 {A B l1 l2 m1 m2 : String} (hAB : A ≠ B) {rs : RaceSt}
    (h : RaceInv A B l1 l2 m1 m2 rs) :
    RaceInv A B l1 l2 m1 m2
      ⟨(stepLikeCall rs.store rs.t1).1, (stepLikeCall rs.store rs.t1).2, rs.t2⟩ := by
  rcases hpc : rs.t1.pc with _ | _ | _ | n
  · -- pc = 0: atomic insert of the Like(A → B) row
    have hx0 : (⟨l1, A, B⟩ : Like) ∉ rs.store.likes := by
      intro hm
      have := h.mem1.mp hm
      omega
    have hle : likeExists rs.store A B = false := by
      rcases hl : likeExists rs.store A B with _ | _
      · rfl
      · exact absurd ((likesHas_fst hAB h.likes_sub).mp hl) hx0
    have hstep : stepLikeCall rs.store rs.t1 =
        ({ rs.store with likes := ⟨l1, A, B⟩ :: rs.store.likes }, { rs.t1 with pc := 1 }) := by
      simp [stepLikeCall, hpc, h.t1_actor, h.t1_target, h.t1_rowId, insertLikeIfAbsent, hle]
    rw [hstep]
    refine { t1_actor := h.t1_actor, t1_target := h.t1_target, t1_rowId := h.t1_rowId,
             t1_matchId := h.t1_matchId, t2_actor := h.t2_actor, t2_target := h.t2_target,
             t2_rowId := h.t2_rowId, t2_matchId := h.t2_matchId,
             fin2 := h.fin2, shape1 := h.shape1, shape2 := h.shape2,
             notBothFalse := h.notBothFalse, matchPart := h.matchPart,
             likes_sub := ?_, mem1 := ?_, mem2 := ?_, fin1 := ?_ }
    · intro e he
      rcases List.mem_cons.mp he with rfl | he'
      · exact Or.inl rfl
      · exact h.likes_sub e he'
    · exact iff_of_true (List.mem_cons_self _ _) le_rfl
    · rw [List.mem_cons]
      constructor
      · rintro (heq | hm)
        · exact absurd heq.symm (like_rows_ne hAB)
        · exact h.mem2.mp hm
      · intro hp
        exact Or.inr (h.mem2.mpr hp)
    · have hf := h.fin1
      rw [hpc] at hf
      exact iff_of_false (fun hs => absurd (hf.mp hs) (by decide))
        (show ¬((1 : Nat) = 3) by decide)
  · -- pc = 1: atomic read of the reverse Like(B → A)
    rcases hchk : likeExists rs.store B A with _ | _
    · -- reverse Like absent: the call finishes with matched = false
      have hstep : stepLikeCall rs.store rs.t1 =
          (rs.store, { rs.t1 with pc := 3, res := some ⟨false, none⟩ }) := by
        simp [stepLikeCall, hpc, h.t1_actor, h.t1_target, hchk]
      rw [hstep]
      have hm1 := h.mem1
      rw [hpc] at hm1
      refine { t1_actor := h.t1_actor, t1_target := h.t1_target, t1_rowId := h.t1_rowId,
               t1_matchId := h.t1_matchId, t2_actor := h.t2_actor, t2_target := h.t2_target,
               t2_rowId := h.t2_rowId, t2_matchId := h.t2_matchId,
               likes_sub := h.likes_sub, fin2 := h.fin2, shape2 := h.shape2,
               mem1 := ?_, mem2 := h.mem2, fin1 := ?_, shape1 := ?_,
               notBothFalse := ?_, matchPart := ?_ }
      · exact iff_of_true (hm1.mpr le_rfl) (show (1 : Nat) ≤ 3 by decide)
      · exact iff_of_true rfl rfl
      · intro r hr
        exact Or.inl (Option.some.inj hr).symm
      · rintro ⟨-, h2f⟩
        have h2done : rs.t2.res.isSome := by rw [h2f]; rfl
        have hp2 := h.fin2.mp h2done
        have hy : (⟨l2, B, A⟩ : Like) ∈ rs.store.likes := h.mem2.mpr (by omega)
        have : likeExists rs.store B A = true := (likesHas_snd hAB h.likes_sub).mpr hy
        rw [hchk] at this
        exact Bool.false_ne_true this
      · rcases h.matchPart with ⟨hemp, -, hn2⟩ | ⟨row, hrow, hu1, hu2, -, hc2⟩
        · refine Or.inl ⟨hemp, ?_, hn2⟩
          intro z hz
          simp at hz
        · refine Or.inr ⟨row, hrow, hu1, hu2, ?_, hc2⟩
          intro z hz
          simp at hz
    · -- reverse Like present: reciprocity observed
      have hstep : stepLikeCall rs.store rs.t1 = (rs.store, { rs.t1 with pc := 2 }) := by
        simp [stepLikeCall, hpc, h.t1_actor, h.t1_target, hchk]
      rw [hstep]
      have hm1 := h.mem1
      rw [hpc] at hm1
      have hf := h.fin1
      rw [hpc] at hf
      exact { t1_actor := h.t1_actor, t1_target := h.t1_target, t1_rowId := h.t1_rowId,
              t1_matchId := h.t1_matchId, t2_actor := h.t2_actor, t2_target := h.t2_target,
              t2_rowId := h.t2_rowId, t2_matchId := h.t2_matchId,
              likes_sub := h.likes_sub,
              mem1 := iff_of_true (hm1.mpr le_rfl) (show (1 : Nat) ≤ 2 by decide),
              mem2 := h.mem2,
              fin1 := iff_of_false (fun hs => absurd (hf.mp hs) (by decide))
                (show ¬((2 : Nat) = 3) by decide),
              fin2 := h.fin2, shape1 := h.shape1, shape2 := h.shape2,
              notBothFalse := h.notBothFalse, matchPart := h.matchPart }
  · -- pc = 2: atomic Match Formation (insert-or-read under uq_match_users)
    have hm1 := h.mem1
    rw [hpc] at hm1
    rcases h.matchPart with ⟨hemp, hn1, hn2⟩ | ⟨row, hrow, hu1, hu2, hc1, hc2⟩
    · -- no Match row yet: this call creates it
      have hfm : formMatch rs.store m1 A B =
          ({ rs.store with
              matchRows := [⟨m1, (canonPair A B).1, (canonPair A B).2⟩] }, m1) := by
        unfold formMatch findMatchRow
        rw [hemp]
        rfl
      have hstep : stepLikeCall rs.store rs.t1 =
          ({ rs.store with
              matchRows := [⟨m1, (canonPair A B).1, (canonPair A B).2⟩] },
            { rs.t1 with pc := 3, res := some ⟨true, some m1⟩ }) := by
        simp [stepLikeCall, hpc, h.t1_actor, h.t1_target, h.t1_matchId, hfm]
      rw [hstep]
      refine { t1_actor := h.t1_actor, t1_target := h.t1_target, t1_rowId := h.t1_rowId,
               t1_matchId := h.t1_matchId, t2_actor := h.t2_actor, t2_target := h.t2_target,
               t2_rowId := h.t2_rowId, t2_matchId := h.t2_matchId,
               likes_sub := h.likes_sub,
               mem1 := iff_of_true (hm1.mpr (by omega)) (show (1 : Nat) ≤ 3 by decide),
               mem2 := h.mem2,
               fin1 := iff_of_true rfl rfl,
               fin2 := h.fin2, shape2 := h.shape2,
               shape1 := ?_, notBothFalse := ?_, matchPart := ?_ }
      · intro r hr
        exact Or.inr ⟨m1, (Option.some.inj hr).symm⟩
      · rintro ⟨h1f, -⟩
        simp at h1f
      · refine Or.inr ⟨⟨m1, (canonPair A B).1, (canonPair A B).2⟩, rfl, rfl, rfl, ?_, ?_⟩
        · intro z hz
          simp only [Option.some.injEq, SwipeResult.mk.injEq, true_and] at hz
          exact hz.symm
        · intro z hz
          exact absurd hz (hn2 z)
    · -- a Match row already exists: insert conflicts, its id is re-read
      have hfind : findMatchRow rs.store (canonPair A B).1 (canonPair A B).2 = some row := by
        unfold findMatchRow
        rw [hrow]
        simp [List.find?, hu1, hu2]
      have hfm : formMatch rs.store m1 A B = (rs.store, row.id) := by
        unfold formMatch
        rw [hfind]
      have hstep : stepLikeCall rs.store rs.t1 =
          (rs.store, { rs.t1 with pc := 3, res := some ⟨true, some row.id⟩ }) := by
        simp [stepLikeCall, hpc, h.t1_actor, h.t1_target, h.t1_matchId, hfm]
      rw [hstep]
      refine { t1_actor := h.t1_actor, t1_target := h.t1_target, t1_rowId := h.t1_rowId,
               t1_matchId := h.t1_matchId, t2_actor := h.t2_actor, t2_target := h.t2_target,
               t2_rowId := h.t2_rowId, t2_matchId := h.t2_matchId,
               likes_sub := h.likes_sub,
               mem1 := iff_of_true (hm1.mpr (by omega)) (show (1 : Nat) ≤ 3 by decide),
               mem2 := h.mem2,
               fin1 := iff_of_true rfl rfl,
               fin2 := h.fin2, shape2 := h.shape2,
               shape1 := ?_, notBothFalse := ?_, matchPart := ?_ }
      · intro r hr
        exact Or.inr ⟨row.id, (Option.some.inj hr).symm⟩
      · rintro ⟨h1f, -⟩
        simp at h1f
      · refine Or.inr ⟨row, hrow, hu1, hu2, ?_, hc2⟩
        intro z hz
        simp only [Option.some.injEq, SwipeResult.mk.injEq, true_and] at hz
        exact hz.symm
  · -- pc ≥ 3: the call has finished, the step is a no-op
    have hstep : stepLikeCall rs.store rs.t1 = (rs.store, rs.t1) := by
      simp [stepLikeCall, hpc]
    rw [hstep]
    exact h

theorem raceInv_step2 {A B l1 l2 m1 m2 : String} (hAB : A ≠ B) {rs : RaceSt}
    (h : RaceInv A B l1 l2 m1 m2 rs) :
    RaceInv A B l1 l2 m1 m2
      ⟨(stepLikeCall rs.store rs.t2).1, rs.t1, (stepLikeCall rs.store rs.t2).2⟩ := by
  rcases hpc : rs.t2.pc with _ | _ | _ | n
  · -- pc = 0: atomic insert of the Like(B → A) row
    have hy0 : (⟨l2, B, A⟩ : Like) ∉ rs.store.likes := by
      intro hm
      have := h.mem2.mp hm
      omega
    have hle : likeExists rs.store B A = false := by
      rcases hl : likeExists rs.store B A with _ | _
      · rfl
      · exact absurd ((likesHas_snd hAB h.likes_sub).mp hl) hy0
    have hstep : stepLikeCall rs.store rs.t2 =
        ({ rs.store with likes := ⟨l2, B, A⟩ :: rs.store.likes }, { rs.t2 with pc := 1 }) := by
      simp [stepLikeCall, hpc, h.t2_actor, h.t2_target, h.t2_rowId, insertLikeIfAbsent, hle]
    rw [hstep]
    refine { t1_actor := h.t1_actor, t1_target := h.t1_target, t1_rowId := h.t1_rowId,
             t1_matchId := h.t1_matchId, t2_actor := h.t2_actor, t2_target := h.t2_target,
             t2_rowId := h.t2_rowId, t2_matchId := h.t2_matchId,
             fin1 := h.fin1, shape1 := h.shape1, shape2 := h.shape2,
             notBothFalse := h.notBothFalse, matchPart := h.matchPart,
             likes_sub := ?_, mem1 := ?_, mem2 := ?_, fin2 := ?_ }
    · intro e he
      rcases List.mem_cons.mp he with rfl | he'
      · exact Or.inr rfl
      · exact h.likes_sub e he'
    · rw [List.mem_cons]
      constructor
      · rintro (heq | hm)
        · exact absurd heq (like_rows_ne hAB)
        · exact h.mem1.mp hm
      · intro hp
        exact Or.inr (h.mem1.mpr hp)
    · exact iff_of_true (List.mem_cons_self _ _) le_rfl
    · have hf := h.fin2
      rw [hpc] at hf
      exact iff_of_false (fun hs => absurd (hf.mp hs) (by decide))
        (show ¬((1 : Nat) = 3) by decide)
  · -- pc = 1: atomic read of the reverse Like(A → B)
    rcases hchk : likeExists rs.store A B with _ | _
    · -- reverse Like absent: the call finishes with matched = false
      have hstep : stepLikeCall rs.store rs.t2 =
          (rs.store, { rs.t2 with pc := 3, res := some ⟨false, none⟩ }) := by
        simp [stepLikeCall, hpc, h.t2_actor, h.t2_target, hchk]
      rw [hstep]
      have hm2 := h.mem2
      rw [hpc] at hm2
      refine { t1_actor := h.t1_actor, t1_target := h.t1_target, t1_rowId := h.t1_rowId,
               t1_matchId := h.t1_matchId, t2_actor := h.t2_actor, t2_target := h.t2_target,
               t2_rowId := h.t2_rowId, t2_matchId := h.t2_matchId,
               likes_sub := h.likes_sub, fin1 := h.fin1, shape1 := h.shape1,
               mem1 := h.mem1, mem2 := ?_, fin2 := ?_, shape2 := ?_,
               notBothFalse := ?_, matchPart := ?_ }
      · exact iff_of_true (hm2.mpr le_rfl) (show (1 : Nat) ≤ 3 by decide)
      · exact iff_of_true rfl rfl
      · intro r hr
        exact Or.inl (Option.some.inj hr).symm
      · rintro ⟨h1f, -⟩
        have h1done : rs.t1.res.isSome := by rw [h1f]; rfl
        have hp1 := h.fin1.mp h1done
        have hx : (⟨l1, A, B⟩ : Like) ∈ rs.store.likes := h.mem1.mpr (by omega)
        have : likeExists rs.store A B = true := (likesHas_fst hAB h.likes_sub).mpr hx
        rw [hchk] at this
        exact Bool.false_ne_true this
      · rcases h.matchPart with ⟨hemp, hn1, -⟩ | ⟨row, hrow, hu1, hu2, hc1, -⟩
        · refine Or.inl ⟨hemp, hn1, ?_⟩
          intro z hz
          simp at hz
        · refine Or.inr ⟨row, hrow, hu1, hu2, hc1, ?_⟩
          intro z hz
          simp at hz
    · -- reverse Like present: reciprocity observed
      have hstep : stepLikeCall rs.store rs.t2 = (rs.store, { rs.t2 with pc := 2 }) := by
        simp [stepLikeCall, hpc, h.t2_actor, h.t2_target, hchk]
      rw [hstep]
      have hm2 := h.mem2
      rw [hpc] at hm2
      have hf := h.fin2
      rw [hpc] at hf
      exact { t1_actor := h.t1_actor, t1_target := h.t1_target, t1_rowId := h.t1_rowId,
              t1_matchId := h.t1_matchId, t2_actor := h.t2_actor, t2_target := h.t2_target,
              t2_rowId := h.t2_rowId, t2_matchId := h.t2_matchId,
              likes_sub := h.likes_sub,
              mem1 := h.mem1,
              mem2 := iff_of_true (hm2.mpr le_rfl) (show (1 : Nat) ≤ 2 by decide),
              fin2 := iff_of_false (fun hs => absurd (hf.mp hs) (by decide))
                (show ¬((2 : Nat) = 3) by decide),
              fin1 := h.fin1, shape1 := h.shape1, shape2 := h.shape2,
              notBothFalse := h.notBothFalse, matchPart := h.matchPart }
  · -- pc = 2: atomic Match Formation (insert-or-read under uq_match_users)
    have hm2 := h.mem2
    rw [hpc] at hm2
    rcases h.matchPart with ⟨hemp, hn1, hn2⟩ | ⟨row, hrow, hu1, hu2, hc1, hc2⟩
    · -- no Match row yet: this call creates it
      have hfm : formMatch rs.store m2 B A =
          ({ rs.store with
              matchRows := [⟨m2, (canonPair A B).1, (canonPair A B).2⟩] }, m2) := by
        unfold formMatch findMatchRow
        rw [canonPair_comm B A, hemp]
        rfl
      have hstep : stepLikeCall rs.store rs.t2 =
          ({ rs.store with
              matchRows := [⟨m2, (canonPair A B).1, (canonPair A B).2⟩] },
            { rs.t2 with pc := 3, res := some ⟨true, some m2⟩ }) := by
        simp [stepLikeCall, hpc, h.t2_actor, h.t2_target, h.t2_matchId, hfm]
      rw [hstep]
      refine { t1_actor := h.t1_actor, t1_target := h.t1_target, t1_rowId := h.t1_rowId,
               t1_matchId := h.t1_matchId, t2_actor := h.t2_actor, t2_target := h.t2_target,
               t2_rowId := h.t2_rowId, t2_matchId := h.t2_matchId,
               likes_sub := h.likes_sub,
               mem1 := h.mem1,
               mem2 := iff_of_true (hm2.mpr (by omega)) (show (1 : Nat) ≤ 3 by decide),
               fin2 := iff_of_true rfl rfl,
               fin1 := h.fin1, shape1 := h.shape1,
               shape2 := ?_, notBothFalse := ?_, matchPart := ?_ }
      · intro r hr
        exact Or.inr ⟨m2, (Option.some.inj hr).symm⟩
      · rintro ⟨-, h2f⟩
        simp at h2f
      · refine Or.inr ⟨⟨m2, (canonPair A B).1, (canonPair A B).2⟩, rfl, rfl, rfl, ?_, ?_⟩
        · intro z hz
          exact absurd hz (hn1 z)
        · intro z hz
          simp only [Option.some.injEq, SwipeResult.mk.injEq, true_and] at hz
          exact hz.symm
    · -- a Match row already exists: insert conflicts, its id is re-read
      have hfind : findMatchRow rs.store (canonPair B A).1 (canonPair B A).2 = some row := by
        unfold findMatchRow
        rw [canonPair_comm B A, hrow]
        simp [List.find?, hu1, hu2]
      have hfm : formMatch rs.store m2 B A = (rs.store, row.id) := by
        unfold formMatch
        rw [hfind]
      have hstep : stepLikeCall rs.store rs.t2 =
          (rs.store, { rs.t2 with pc := 3, res := some ⟨true, some row.id⟩ }) := by
        simp [stepLikeCall, hpc, h.t2_actor, h.t2_target, h.t2_matchId, hfm]
      rw [hstep]
      refine { t1_actor := h.t1_actor, t1_target := h.t1_target, t1_rowId := h.t1_rowId,
               t1_matchId := h.t1_matchId, t2_actor := h.t2_actor, t2_target := h.t2_target,
               t2_rowId := h.t2_rowId, t2_matchId := h.t2_matchId,
               likes_sub := h.likes_sub,
               mem1 := h.mem1,
               mem2 := iff_of_true (hm2.mpr (by omega)) (show (1 : Nat) ≤ 3 by decide),
               fin2 := iff_of_true rfl rfl,
               fin1 := h.fin1, shape1 := h.shape1,
               shape2 := ?_, notBothFalse := ?_, matchPart := ?_ }
      · intro r hr
        exact Or.inr ⟨row.id, (Option.some.inj hr).symm⟩
      · rintro ⟨-, h2f⟩
        simp at h2f
      · refine Or.inr ⟨row, hrow, hu1, hu2, hc1, ?_⟩
        intro z hz
        simp only [Option.some.injEq, SwipeResult.mk.injEq, true_and] at hz
        exact hz.symm
  · -- pc ≥ 3: the call has finished, the step is a no-op
    have hstep : stepLikeCall rs.store rs.t2 = (rs.store, rs.t2) := by
      simp [stepLikeCall, hpc]
    rw [hstep]
    exact h

theorem raceInv_raceStep {A B l1 l2 m1 m2 : String} (hAB : A ≠ B) {rs : RaceSt}
    (h : RaceInv A B l1 l2 m1 m2 rs) (b : Bool) :
    RaceInv A B l1 l2 m1 m2 (raceStep rs b) := by
  unfold raceStep
  rcases b with _ | _
  · rw [if_neg (by simp)]
    split
    · exact raceInv_step1 hAB h
    · exact raceInv_step2 hAB h
  · rw [if_pos rfl]
    split
    · exact raceInv_step2 hAB h
    · exact raceInv_step1 hAB h

theorem raceInv_runRace {A B l1 l2 m1 m2 : String} (hAB : A ≠ B)
    (sched : List Bool) {rs : RaceSt} (h : RaceInv A B l1 l2 m1 m2 rs) :
    RaceInv A B l1 l2 m1 m2 (runRace rs sched) := by
  induction sched generalizing rs with
  | nil => exact h
  | cons b l ih => exact ih (raceInv_raceStep hAB h b)

theorem raceInv_init {A B l1 l2 m1 m2 : String} :
    RaceInv A B l1 l2 m1 m2 (raceInit A B l1 l2 m1 m2) := by
  refine { t1_actor := rfl, t1_target := rfl, t1_rowId := rfl, t1_matchId := rfl,
           t2_actor := rfl, t2_target := rfl, t2_rowId := rfl, t2_matchId := rfl,
           likes_sub := ?_, mem1 := ?_, mem2 := ?_, fin1 := ?_, fin2 := ?_,
           shape1 := ?_, shape2 := ?_, notBothFalse := ?_, matchPart := ?_ }
  · intro e he
    simp [raceInit, emptyStore] at he
  · simp [raceInit, emptyStore]
  · simp [raceInit, emptyStore]
  · simp [raceInit]
  · simp [raceInit]
  · intro r hr
    simp [raceInit] at hr
  · intro r hr
    simp [raceInit] at hr
  · rintro ⟨h1, -⟩
    simp [raceInit] at h1
  · exact Or.inl ⟨rfl, by simp [raceInit], by simp [raceInit]⟩

/-- C3 (amended): if `swipe(A,B,Like)` and `swipe(B,A,Like)` are issued
concurrently then, under every interleaving of their atomic storage
operations (every schedule after which both calls have finished), exactly
one Match record exists for the unordered pair (A,B) — canonically ordered
— the storage-layer uniqueness constraint being the sole arbiter of the
race; at least one of the two calls reports that record's id, and every
call that reports a `match_id` reports that same id (a call may instead
report `matched=false`, which happens in the fully sequential
interleavings). -/
theorem c3_race_single_match (A B l1 l2 m1 m2 : String) (hAB : A ≠ B)
    (sched : List Bool)
    (h1 : threadDone (runRace (raceInit A B l1 l2 m1 m2) sched).t1 = true)
    (h2 : threadDone (runRace (raceInit A B l1 l2 m1 m2) sched).t2 = true) :
    ∃ row : Match,
      (runRace (raceInit A B l1 l2 m1 m2) sched).store.matchRows = [row] ∧
      row.user1_id = (canonPair A B).1 ∧ row.user2_id = (canonPair A B).2 ∧
      ((runRace (raceInit A B l1 l2 m1 m2) sched).t1.res = some ⟨true, some row.id⟩ ∨
       (runRace (raceInit A B l1 l2 m1 m2) sched).t2.res = some ⟨true, some row.id⟩) ∧
      ((runRace (raceInit A B l1 l2 m1 m2) sched).t1.res = some ⟨false, none⟩ ∨
       (runRace (raceInit A B l1 l2 m1 m2) sched).t1.res = some ⟨true, some row.id⟩) ∧
      ((runRace (raceInit A B l1 l2 m1 m2) sched).t2.res = some ⟨false, none⟩ ∨
       (runRace (raceInit A B l1 l2 m1 m2) sched).t2.res = some ⟨true, some row.id⟩) := by
  have hinv : RaceInv A B l1 l2 m1 m2 (runRace (raceInit A B l1 l2 m1 m2) sched) :=
    raceInv_runRace hAB sched raceInv_init
  have hp1 : (runRace (raceInit A B l1 l2 m1 m2) sched).t1.pc = 3 := by
    simpa [threadDone] using h1
  have hp2 : (runRace (raceInit A B l1 l2 m1 m2) sched).t2.pc = 3 := by
    simpa [threadDone] using h2
  obtain ⟨r1, hr1⟩ := Option.isSome_iff_exists.mp (hinv.fin1.mpr hp1)
  obtain ⟨r2, hr2⟩ := Option.isSome_iff_exists.mp (hinv.fin2.mpr hp2)
  rcases hinv.matchPart with ⟨-, hn1, hn2⟩ | ⟨row, hrow, hu1, hu2, hc1, hc2⟩
  · -- no Match row: both results would have to be matched=false, impossible
    have hf1 : r1 = ⟨false, none⟩ := by
      rcases hinv.shape1 r1 hr1 with hf | ⟨z, rfl⟩
      · exact hf
      · exact absurd hr1 (hn1 (some z))
    have hf2 : r2 = ⟨false, none⟩ := by
      rcases hinv.shape2 r2 hr2 with hf | ⟨z, rfl⟩
      · exact hf
      · exact absurd hr2 (hn2 (some z))
    rw [hf1] at hr1
    rw [hf2] at hr2
    exact absurd ⟨hr1, hr2⟩ hinv.notBothFalse
  · refine ⟨row, hrow, hu1, hu2, ?_, ?_, ?_⟩
    · rcases hinv.shape1 r1 hr1 with hf1 | ⟨z1, rfl⟩
      · rcases hinv.shape2 r2 hr2 with hf2 | ⟨z2, rfl⟩
        · rw [hf1] at hr1
          rw [hf2] at hr2
          exact absurd ⟨hr1, hr2⟩ hinv.notBothFalse
        · have := hc2 (some z2) hr2
          exact Or.inr (this ▸ hr2)
      · have := hc1 (some z1) hr1
        exact Or.inl (this ▸ hr1)
    · rcases hinv.shape1 r1 hr1 with hf1 | ⟨z1, rfl⟩
      · exact Or.inl (hf1 ▸ hr1)
      · have := hc1 (some z1) hr1
        exact Or.inr (this ▸ hr1)
    · rcases hinv.shape2 r2 hr2 with hf2 | ⟨z2, rfl⟩
      · exact Or.inl (hf2 ▸ hr2)
      · have := hc2 (some z2) hr2
        exact Or.inr (this ▸ hr2)

/-- Witness for C3 (amended) at a genuinely overlapping interleaving: both
inserts land before either reciprocity check, both calls observe
reciprocity and report the single Match's id. -/
theorem c3_race_single_match_witness :
    ∃ row : Match,
      (runRace (raceInit "A" "B" "l1" "l2" "m1" "m2")
        [true, false, true, false, true, false]).store.matchRows = [row] ∧
      row.user1_id = (canonPair "A" "B").1 ∧ row.user2_id = (canonPair "A" "B").2 ∧
      ((runRace (raceInit "A" "B" "l1" "l2" "m1" "m2")
        [true, false, true, false, true, false]).t1.res = some ⟨true, some row.id⟩ ∨
       (runRace (raceInit "A" "B" "l1" "l2" "m1" "m2")
        [true, false, true, false, true, false]).t2.res = some ⟨true, some row.id⟩) ∧
      ((runRace (raceInit "A" "B" "l1" "l2" "m1" "m2")
        [true, false, true, false, true, false]).t1.res = some ⟨false, none⟩ ∨
       (runRace (raceInit "A" "B" "l1" "l2" "m1" "m2")
        [true, false, true, false, true, false]).t1.res = some ⟨true, some row.id⟩) ∧
      ((runRace (raceInit "A" "B" "l1" "l2" "m1" "m2")
        [true, false, true, false, true, false]).t2.res = some ⟨false, none⟩ ∨
       (runRace (raceInit "A" "B" "l1" "l2" "m1" "m2")
        [true, false, true, false, true, false]).t2.res = some ⟨true, some row.id⟩) :=
  c3_race_single_match "A" "B" "l1" "l2" "m1" "m2" (by decide)
    [true, false, true, false, true, false] rfl rfl

theorem retrieve_mem_not_excluded {dist : ℚ × ℚ → ℚ × ℚ → ℚ}
    {profiles : List GeoProfile} {ms : MatchingStore} {user_id : String}
    {loc : Option (ℚ × ℚ)} {prefs : Option UserPreferencesInput}
    {cursor : Option (ℚ × String)} {pageSize : Nat}
    {cands : List (ℚ × String)} {cur : Option (ℚ × String)}
    (h : retrieve dist profiles ms user_id loc prefs cursor pageSize = .ok (cands, cur))
    {c : ℚ × String} (hc : c ∈ cands) :
    resolveExcluded ms user_id c.2 = false := by
  rcases prefs with _ | pr
  · simp [retrieve] at h
  rcases loc with _ | origin
  · simp [retrieve] at h
  simp only [retrieve, Except.ok.injEq, Prod.mk.injEq] at h
  obtain ⟨hpage, -⟩ := h
  rw [← hpage] at hc
  have hc1 := List.take_subset _ _ hc
  have hc2 : c ∈ (((profiles.filterMap (fun p =>
      match p.location with
      | none => none
      | some l =>
        if dist origin l ≤ toKilometers pr.max_distance pr.distance_unit then
          some (dist origin l, p)
        else none)).filter (fun dp =>
          decide (pr.min_age ≤ dp.2.age) && decide (dp.2.age ≤ pr.max_age))).filter
        (fun dp => !resolveExcluded ms user_id dp.2.id)).map (fun dp => (dp.1, dp.2.id)) := by
    rcases cursor with _ | cu
    · exact (List.mem_insertionSort candLE).mp hc1
    · exact (List.mem_insertionSort candLE).mp (List.mem_of_mem_filter hc1)
  obtain ⟨dp, hdp, heq⟩ := List.mem_map.mp hc2
  have hpred := List.of_mem_filter hdp
  rw [Bool.not_eq_true'] at hpred
  rw [← heq]
  exact hpred

/-- C5: no identity returned by Candidate Retrieval for a user is in the
exclusion set: it is not the user, not a target the user liked, not a
target the user passed, and not a user matched with the requester — on any
page, for any store and distance oracle. -/
theorem c5_retrieval_respects_exclusion (dist : ℚ × ℚ → ℚ × ℚ → ℚ)
    (profiles : List GeoProfile) (ms : MatchingStore) (user_id : String)
    (loc : Option (ℚ × ℚ)) (prefs : Option UserPreferencesInput)
    (cursor : Option (ℚ × String)) (pageSize : Nat)
    (cands : List (ℚ × String)) (cur : Option (ℚ × String))
    (h : retrieve dist profiles ms user_id loc prefs cursor pageSize = .ok (cands, cur))
    (c : ℚ × String) (hc : c ∈ cands) :
    resolveExcluded ms user_id c.2 = false ∧
    c.2 ≠ user_id ∧
    (∀ l ∈ ms.likes, ¬(l.user_id = user_id ∧ l.target_id = c.2)) ∧
    (∀ p ∈ ms.passes, ¬(p.user_id = user_id ∧ p.target_id = c.2)) ∧
    (∀ m ∈ ms.matchRows, ¬((m.user1_id = user_id ∧ m.user2_id = c.2) ∨
      (m.user2_id = user_id ∧ m.user1_id = c.2))) := by
  have hex := retrieve_mem_not_excluded h hc
  refine ⟨hex, ?_, ?_, ?_, ?_⟩
  · intro hc'
    have ht : resolveExcluded ms user_id c.2 = true := by
      simp only [resolveExcluded, Bool.or_eq_true, beq_iff_eq]
      exact Or.inl (Or.inl (Or.inl hc'.symm))
    rw [hex] at ht
    exact Bool.false_ne_true ht
  · intro l hl hc'
    have ht : resolveExcluded ms user_id c.2 = true := by
      simp only [resolveExcluded, Bool.or_eq_true, List.any_eq_true,
        Bool.and_eq_true, beq_iff_eq]
      exact Or.inl (Or.inl (Or.inr ⟨l, hl, hc'⟩))
    rw [hex] at ht
    exact Bool.false_ne_true ht
  · intro p hp hc'
    have ht : resolveExcluded ms user_id c.2 = true := by
      simp only [resolveExcluded, Bool.or_eq_true, List.any_eq_true,
        Bool.and_eq_true, beq_iff_eq]
      exact Or.inl (Or.inr ⟨p, hp, hc'⟩)
    rw [hex] at ht
    exact Bool.false_ne_true ht
  · intro m hm hc'
    have ht : resolveExcluded ms user_id c.2 = true := by
      simp only [resolveExcluded, Bool.or_eq_true, List.any_eq_true,
        Bool.and_eq_true, beq_iff_eq]
      exact Or.inr ⟨m, hm, hc'⟩
    rw [hex] at ht
    exact Bool.false_ne_true ht

/-- Witness for C5: a single in-radius, age-eligible candidate "c" is
returned to requester "u" on an empty matching store, and is not
excluded. -/
theorem c5_retrieval_respects_exclusion_witness :
    resolveExcluded emptyStore "u" (((0 : ℚ), "c")).2 = false ∧
    (((0 : ℚ), "c")).2 ≠ "u" ∧
    (∀ l ∈ emptyStore.likes, ¬(l.user_id = "u" ∧ l.target_id = (((0 : ℚ), "c")).2)) ∧
    (∀ p ∈ emptyStore.passes, ¬(p.user_id = "u" ∧ p.target_id = (((0 : ℚ), "c")).2)) ∧
    (∀ m ∈ emptyStore.matchRows, ¬((m.user1_id = "u" ∧ m.user2_id = (((0 : ℚ), "c")).2) ∨
      (m.user2_id = "u" ∧ m.user1_id = (((0 : ℚ), "c")).2))) :=
  c5_retrieval_respects_exclusion (fun _ _ => 0) [⟨"c", 5, some (0, 0)⟩]
    emptyStore "u" (some (0, 0)) (some ⟨0, 20, 25, .medium, .kilometers⟩) none 10
    [((0 : ℚ), "c")] (some ((0 : ℚ), "c")) (by decide) ((0 : ℚ), "c") (by simp)

theorem valid_prefs_min_le_max {p : UserPreferencesInput}
    (h : validUserPreferencesInput p = true) : p.min_age ≤ p.max_age := by
  simp only [validUserPreferencesInput, Bool.and_eq_true, decide_eq_true_eq] at h
  exact h.2

theorem validProfileInput_prefs {d : ProfileInput} {p : UserPreferencesInput}
    (h : validProfileInput d = true) (hp : d.preferences = some p) :
    validUserPreferencesInput p = true := by
  simp only [validProfileInput, Bool.and_eq_true] at h
  have := h.2
  rw [hp] at this
  exact this

theorem validProfileUpdate_prefs {d : ProfileUpdate} {p : UserPreferencesInput}
    (h : validProfileUpdate d = true) (hp : d.preferences = some p) :
    validUserPreferencesInput p = true := by
  simp only [validProfileUpdate, Bool.and_eq_true] at h
  have := h.2
  rw [hp] at this
  exact this

theorem create_profile_prefs_inv {db : ProfileDB} {uid : String}
    {data : ProfileInput} {profileId prefId : String} {promptIds : List String}
    {db' : ProfileDB} (hInv : PrefsAgeInv db) (hval : validProfileInput data = true)
    (hok : create_profile db uid data profileId prefId promptIds = .ok db') :
    PrefsAgeInv db' := by
  unfold create_profile at hok
  rcases hfind : db.profiles.find? (fun p => p.user_id == uid) with _ | prof
  · rw [hfind] at hok
    simp only [Except.ok.injEq] at hok
    rw [← hok]
    intro r hr
    rcases List.mem_append.mp hr with hold | hnew
    · exact hInv r hold
    · rcases hpref : data.preferences with _ | p
      · rw [hpref] at hnew
        simp at hnew
      · rw [hpref] at hnew
        simp only [List.mem_singleton] at hnew
        subst hnew
        exact valid_prefs_min_le_max (validProfileInput_prefs hval hpref)
  · rw [hfind] at hok
    simp at hok

theorem update_profile_prefs_inv {db : ProfileDB} {uid : String}
    {data : ProfileUpdate} {prefId : String} {promptIds : List String}
    {db' : ProfileDB} (hInv : PrefsAgeInv db) (hval : validProfileUpdate data = true)
    (hok : update_profile db uid data prefId promptIds = .ok db') :
    PrefsAgeInv db' := by
  unfold update_profile at hok
  rcases hfind : db.profiles.find? (fun p => p.user_id == uid) with _ | prof
  · rw [hfind] at hok
    simp at hok
  · rw [hfind] at hok
    simp only [Except.ok.injEq] at hok
    rw [← hok]
    intro r hr
    rcases hpref : data.preferences with _ | p
    · simp only [hpref] at hr
      exact hInv r hr
    · simp only [hpref] at hr
      have hple := valid_prefs_min_le_max (validProfileUpdate_prefs hval hpref)
      rcases hany : db.user_preferences.any (fun r => r.profile_id == prof.id) with _ | _ <;>
        rw [hany] at hr
      · rw [if_neg (by simp)] at hr
        rcases List.mem_append.mp hr with hold | hnew
        · exact hInv r hold
        · simp only [List.mem_singleton] at hnew
          subst hnew
          exact hple
      · rw [if_pos rfl] at hr
        obtain ⟨r0, hr0, heq⟩ := List.mem_map.mp hr
        rcases hcase : (r0.profile_id == prof.id) with _ | _ <;>
          rw [hcase] at heq
        · rw [if_neg (by simp)] at heq
          rw [← heq]
          exact hInv r0 hr0
        · rw [if_pos rfl] at heq
          rw [← heq]
          exact hple

/-- C6: every preferences record written through profile creation or
profile update satisfies `min_age ≤ max_age`: validated inputs obey the
bound, an input with `max_age < min_age` fails validation, and both
`create_profile` and `update_profile` preserve the stored invariant when
fed validated inputs. -/
theorem c6_preferences_age_bound :
    (∀ p : UserPreferencesInput, validUserPreferencesInput p = true →
      p.min_age ≤ p.max_age) ∧
    (∀ p : UserPreferencesInput, p.max_age < p.min_age →
      validUserPreferencesInput p = false) ∧
    (∀ (db : ProfileDB) (uid : String) (data : ProfileInput)
      (profileId prefId : String) (promptIds : List String) (db' : ProfileDB),
      PrefsAgeInv db → validProfileInput data = true →
      create_profile db uid data profileId prefId promptIds = .ok db' →
      PrefsAgeInv db') ∧
    (∀ (db : ProfileDB) (uid : String) (data : ProfileUpdate)
      (prefId : String) (promptIds : List String) (db' : ProfileDB),
      PrefsAgeInv db → validProfileUpdate data = true →
      update_profile db uid data prefId promptIds = .ok db' →
      PrefsAgeInv db') := by
  refine ⟨fun p h => valid_prefs_min_le_max h, ?_, ?_, ?_⟩
  · intro p h
    rcases hv : validUserPreferencesInput p with _ | _
    · rfl
    · have := valid_prefs_min_le_max hv
      omega
  · intro db uid data profileId prefId promptIds db' hInv hval hok
    exact create_profile_prefs_inv hInv hval hok
  · intro db uid data prefId promptIds db' hInv hval hok
    exact update_profile_prefs_inv hInv hval hok

/-- Witness for C6: a valid input has `min_age ≤ max_age`; an inverted
range fails validation; creating and then updating a profile with valid
preferences keeps the stored invariant on a concrete database. -/
theorem c6_preferences_age_bound_witness :
    (⟨3, 7, 25, .medium, .miles⟩ : UserPreferencesInput).min_age ≤
      (⟨3, 7, 25, .medium, .miles⟩ : UserPreferencesInput).max_age ∧
    validUserPreferencesInput ⟨9, 2, 25, .medium, .miles⟩ = false ∧
    PrefsAgeInv ⟨[⟨"p1", "u", "Rex", 3, "woof", none⟩], [], [],
      [⟨"pr1", "p1", 3, 7, 25, .medium, .miles⟩]⟩ :=
  ⟨c6_preferences_age_bound.1 ⟨3, 7, 25, .medium, .miles⟩ (by decide),
   c6_preferences_age_bound.2.1 ⟨9, 2, 25, .medium, .miles⟩ (by decide),
   c6_preferences_age_bound.2.2.1 ⟨[], [], [], []⟩ "u"
     ⟨"Rex", 3, "woof", none, [], some ⟨3, 7, 25, .medium, .miles⟩⟩ "p1" "pr1" []
     ⟨[⟨"p1", "u", "Rex", 3, "woof", none⟩], [], [],
       [⟨"pr1", "p1", 3, 7, 25, .medium, .miles⟩]⟩
     (fun r hr => by simp at hr) (by decide) (by decide)⟩

/-- C7: for a user with a profile, `delete_profile` succeeds and the
resulting state holds neither that Profile row nor any dependent photo,
prompt or preferences row (cascade deletion); for a user with no profile it
raises `ProfileNotFoundError` and, returning no new state, deletes
nothing. -/
theorem c7_delete_profile_cascades (db : ProfileDB) (uid : String) :
    (db.profiles.find? (fun p => p.user_id == uid) = none →
      delete_profile db uid = .error .profileNotFound) ∧
    (∀ prof, db.profiles.find? (fun p => p.user_id == uid) = some prof →
      prof.user_id = uid ∧
      ∃ db', delete_profile db uid = .ok db' ∧
        (∀ q ∈ db'.profiles, q.id ≠ prof.id) ∧
        (∀ ph ∈ db'.photos, ph.profile_id ≠ prof.id) ∧
        (∀ pr ∈ db'.prompts, pr.profile_id ≠ prof.id) ∧
        (∀ r ∈ db'.user_preferences, r.profile_id ≠ prof.id)) := by
  constructor
  · intro hfind
    unfold delete_profile
    rw [hfind]
  · intro prof hfind
    constructor
    · have := List.find?_some hfind
      simpa using this
    · refine ⟨_, by unfold delete_profile; rw [hfind], ?_, ?_, ?_, ?_⟩
      · intro q hq
        have := List.of_mem_filter hq
        simpa using this
      · intro ph hph
        have := List.of_mem_filter hph
        simpa using this
      · intro pr hpr
        have := List.of_mem_filter hpr
        simpa using this
      · intro r hr
        have := List.of_mem_filter hr
        simpa using this

/-- Witness for C7: deleting from a database without the profile fails;
deleting a concrete profile removes it with its photo, prompt and
preferences rows. -/
theorem c7_delete_profile_cascades_witness :
    (delete_profile ⟨[], [], [], []⟩ "ghost" = .error .profileNotFound) ∧
    ((⟨"p1", "u", "Rex", 3, "woof", none⟩ : ProfileRow).user_id = "u" ∧
     ∃ db', delete_profile
        ⟨[⟨"p1", "u", "Rex", 3, "woof", none⟩],
         [⟨"ph1", "p1", "http://x/1.jpg", 0⟩],
         [⟨"q1", "p1", "q", "a", 0⟩],
         [⟨"pr1", "p1", 3, 7, 25, .medium, .miles⟩]⟩ "u" = .ok db' ∧
        (∀ q ∈ db'.profiles, q.id ≠ (⟨"p1", "u", "Rex", 3, "woof", none⟩ : ProfileRow).id) ∧
        (∀ ph ∈ db'.photos, ph.profile_id ≠ (⟨"p1", "u", "Rex", 3, "woof", none⟩ : ProfileRow).id) ∧
        (∀ pr ∈ db'.prompts, pr.profile_id ≠ (⟨"p1", "u", "Rex", 3, "woof", none⟩ : ProfileRow).id) ∧
        (∀ r ∈ db'.user_preferences, r.profile_id ≠ (⟨"p1", "u", "Rex", 3, "woof", none⟩ : ProfileRow).id)) :=
  ⟨(c7_delete_profile_cascades ⟨[], [], [], []⟩ "ghost").1 rfl,
   (c7_delete_profile_cascades
      ⟨[⟨"p1", "u", "Rex", 3, "woof", none⟩],
       [⟨"ph1", "p1", "http://x/1.jpg", 0⟩],
       [⟨"q1", "p1", "q", "a", 0⟩],
       [⟨"pr1", "p1", 3, 7, 25, .medium, .miles⟩]⟩ "u").2
     ⟨"p1", "u", "Rex", 3, "woof", none⟩ (by decide)⟩

theorem validProfileInput_age {d : ProfileInput}
    (h : validProfileInput d = true) : 0 ≤ d.age ∧ d.age ≤ 20 := by
  simp only [validProfileInput, Bool.and_eq_true, decide_eq_true_eq] at h
  obtain ⟨⟨⟨⟨⟨⟨⟨⟨-, -⟩, hage1⟩, hage2⟩, -⟩, -⟩, -⟩, -⟩, -⟩ := h
  exact ⟨hage1, hage2⟩

theorem validUserPreferencesInput_ages {p : UserPreferencesInput}
    (h : validUserPreferencesInput p = true) :
    0 ≤ p.min_age ∧ p.min_age ≤ 20 ∧ 0 ≤ p.max_age ∧ p.max_age ≤ 20 := by
  simp only [validUserPreferencesInput, Bool.and_eq_true, decide_eq_true_eq] at h
  obtain ⟨⟨⟨⟨⟨h1, h2⟩, h3⟩, h4⟩, -⟩, -⟩ := h
  exact ⟨h1, h2, h3, h4⟩

/-- C8: schema validation accepts a profile age only in [0, 20] and
preference ages only in [0, 20]; an input with an age outside the range —
such as a profile age of 25 or a preference `max_age` of 30 — is
rejected. -/
theorem c8_age_bounds :
    (∀ d : ProfileInput, validProfileInput d = true → 0 ≤ d.age ∧ d.age ≤ 20) ∧
    (∀ p : UserPreferencesInput, validUserPreferencesInput p = true →
      0 ≤ p.min_age ∧ p.min_age ≤ 20 ∧ 0 ≤ p.max_age ∧ p.max_age ≤ 20) ∧
    (∀ d : ProfileInput, ¬(0 ≤ d.age ∧ d.age ≤ 20) → validProfileInput d = false) ∧
    (∀ p : UserPreferencesInput, ¬(0 ≤ p.max_age ∧ p.max_age ≤ 20) →
      validUserPreferencesInput p = false) ∧
    validProfileInput ⟨"Rex", 25, "woof", none, [], none⟩ = false ∧
    validUserPreferencesInput ⟨0, 30, 25, .medium, .miles⟩ = false := by
  refine ⟨fun d h => validProfileInput_age h,
    fun p h => validUserPreferencesInput_ages h, ?_, ?_, by decide, by decide⟩
  · intro d hnot
    rcases hv : validProfileInput d with _ | _
    · rfl
    · exact absurd (validProfileInput_age hv) hnot
  · intro p hnot
    rcases hv : validUserPreferencesInput p with _ | _
    · rfl
    · have := validUserPreferencesInput_ages hv
      exact absurd ⟨this.2.2.1, this.2.2.2⟩ hnot

/-- Witness for C8 at concrete inputs: a valid profile input's age lies in
[0, 20], valid preferences' ages lie in [0, 20], and inputs with age 25 /
max_age 30 are rejected. -/
theorem c8_age_bounds_witness :
    (0 ≤ (ProfileInput.mk "Rex" 3 "woof" none [] none).age ∧
      (ProfileInput.mk "Rex" 3 "woof" none [] none).age ≤ 20) ∧
    (0 ≤ (UserPreferencesInput.mk 3 7 25 .medium .miles).min_age ∧
      (UserPreferencesInput.mk 3 7 25 .medium .miles).min_age ≤ 20 ∧
      0 ≤ (UserPreferencesInput.mk 3 7 25 .medium .miles).max_age ∧
      (UserPreferencesInput.mk 3 7 25 .medium .miles).max_age ≤ 20) ∧
    validProfileInput ⟨"Rex", 25, "woof", none, [], none⟩ = false ∧
    validUserPreferencesInput ⟨0, 30, 25, .medium, .miles⟩ = false :=
  ⟨c8_age_bounds.1 ⟨"Rex", 3, "woof", none, [], none⟩ (by decide),
   c8_age_bounds.2.1 ⟨3, 7, 25, .medium, .miles⟩ (by decide),
   c8_age_bounds.2.2.1 ⟨"Rex", 25, "woof", none, [], none⟩ (by decide),
   c8_age_bounds.2.2.2.1 ⟨0, 30, 25, .medium, .miles⟩ (by decide)⟩

theorem upload_photo_le_max {db : ProfileDB} {uid photoId url : String}
    {fileOk : Bool} {db' : ProfileDB} {photo : PhotoRow}
    (h : upload_photo db uid photoId url fileOk = .ok (db', photo)) :
    photoCount db' photo.profile_id ≤ MAX_PHOTOS := by
  unfold upload_photo at h
  rcases hfind : db.profiles.find? (fun p => p.user_id == uid) with _ | prof <;>
    simp only [hfind] at h
  · exact absurd h (by simp)
  · by_cases hcnt : MAX_PHOTOS ≤
        (db.photos.filter (fun ph => ph.profile_id == prof.id)).length
    · rw [if_pos hcnt] at h
      exact absurd h (by simp)
    · rw [if_neg hcnt] at h
      rcases fileOk with _ | _ <;> simp only [Bool.not_false, Bool.not_true,
        Bool.false_eq_true, if_true, if_false] at h
      · exact absurd h (by simp)
      · simp only [Except.ok.injEq, Prod.mk.injEq] at h
        obtain ⟨hdb, hphoto⟩ := h
        rw [← hdb, ← hphoto]
        unfold photoCount
        simp only [List.filter_append]
        rw [List.length_append]
        have hone : (List.filter (fun ph => ph.profile_id == prof.id)
            [(⟨photoId, prof.id, url,
              ((db.photos.filter (fun ph => ph.profile_id == prof.id)).length : Int)⟩ :
                PhotoRow)]).length = 1 := by
          simp
        rw [hone]
        omega

theorem delete_photo_ge_min {db : ProfileDB} {uid photo_id : String}
    {prof : ProfileRow} {db' : ProfileDB}
    (hfind : db.profiles.find? (fun p => p.user_id == uid) = some prof)
    (h : delete_photo db uid photo_id = .ok db') :
    MIN_PHOTOS ≤ photoCount db' prof.id := by
  unfold delete_photo at h
  simp only [hfind] at h
  rcases hfind2 : db.photos.find?
      (fun ph => ph.id == photo_id && ph.profile_id == prof.id) with _ | photo <;>
    simp only [hfind2] at h
  · exact absurd h (by simp)
  · by_cases hcnt : (db.photos.filter (fun ph => ph.profile_id == prof.id)).length ≤
        MIN_PHOTOS
    · rw [if_pos hcnt] at h
      exact absurd h (by simp)
    · rw [if_neg hcnt] at h
      simp only [Except.ok.injEq] at h
      rw [← h]
      unfold photoCount
      rw [← List.countP_eq_length_filter, List.countP_map]
      have hfeq : ((fun ph : PhotoRow => ph.profile_id == prof.id) ∘
          (fun ph : PhotoRow =>
            if ph.profile_id == prof.id && decide (photo.order < ph.order) then
              { ph with order := ph.order - 1 }
            else ph)) = (fun ph : PhotoRow => ph.profile_id == prof.id) := by
        funext ph
        rcases hc : (ph.profile_id == prof.id && decide (photo.order < ph.order)) with _ | _
        · simp [Function.comp, hc]
        · simp [Function.comp, hc]
      rw [hfeq]
      obtain ⟨b, l1, l2, -, hpb, hsplit, herase⟩ :=
        List.exists_of_eraseP (List.mem_of_find?_eq_some hfind2)
          (List.find?_some hfind2)
      have hbprof : (b.profile_id == prof.id) = true := by
        simp only [Bool.and_eq_true] at hpb
        exact hpb.2
      have htot : MIN_PHOTOS <
          (db.photos.filter (fun ph => ph.profile_id == prof.id)).length :=
        Nat.lt_of_not_le hcnt
      rw [← List.countP_eq_length_filter] at htot
      have hc2 : List.countP (fun ph : PhotoRow => ph.profile_id == prof.id) (b :: l2) =
          List.countP (fun ph : PhotoRow => ph.profile_id == prof.id) l2 + 1 := by
        rw [List.countP_cons, hbprof]
        simp
      rw [herase, List.countP_append]
      rw [hsplit, List.countP_append, hc2] at htot
      omega

/-- C9: photo operations keep the per-profile photo count within bounds:
a successful `upload_photo` never yields more than `MAX_PHOTOS = 6` photos
and the upload is rejected with `InvalidPhotoCountError` (adding nothing)
whenever the profile already has 6 (or more) photos; a successful
`delete_photo` never leaves fewer than `MIN_PHOTOS = 2` photos and the
delete is rejected with `InvalidPhotoCountError` (deleting nothing)
whenever the profile has 2 or fewer photos. -/
theorem c9_photo_count_bounds :
    (∀ (db : ProfileDB) (uid photoId url : String) (fileOk : Bool)
      (db' : ProfileDB) (photo : PhotoRow),
      upload_photo db uid photoId url fileOk = .ok (db', photo) →
      photoCount db' photo.profile_id ≤ MAX_PHOTOS) ∧
    (∀ (db : ProfileDB) (uid photoId url : String) (fileOk : Bool)
      (prof : ProfileRow),
      db.profiles.find? (fun p => p.user_id == uid) = some prof →
      MAX_PHOTOS ≤ photoCount db prof.id →
      upload_photo db uid photoId url fileOk = .error .invalidPhotoCount) ∧
    (∀ (db : ProfileDB) (uid photo_id : String) (prof : ProfileRow)
      (db' : ProfileDB),
      db.profiles.find? (fun p => p.user_id == uid) = some prof →
      delete_photo db uid photo_id = .ok db' →
      MIN_PHOTOS ≤ photoCount db' prof.id) ∧
    (∀ (db : ProfileDB) (uid photo_id : String) (prof : ProfileRow)
      (photo : PhotoRow),
      db.profiles.find? (fun p => p.user_id == uid) = some prof →
      db.photos.find? (fun ph => ph.id == photo_id && ph.profile_id == prof.id) =
        some photo →
      photoCount db prof.id ≤ MIN_PHOTOS →
      delete_photo db uid photo_id = .error .invalidPhotoCount) := by
  refine ⟨fun db uid photoId url fileOk db' photo h => upload_photo_le_max h,
    ?_, fun db uid photo_id prof db' hfind h => delete_photo_ge_min hfind h, ?_⟩
  · intro db uid photoId url fileOk prof hfind hcnt
    unfold upload_photo
    simp only [hfind]
    unfold photoCount at hcnt
    rw [if_pos hcnt]
  · intro db uid photo_id prof photo hfind hfind2 hcnt
    unfold delete_photo
    simp only [hfind, hfind2]
    unfold photoCount at hcnt
    rw [if_pos hcnt]

/-- Witness for C9 on concrete databases: an upload onto a profile with 2
photos succeeds and stays within 6; an upload onto a full profile (6
photos) is rejected; deleting from a profile with 3 photos succeeds and
keeps at least 2; deleting from a profile with 2 photos is rejected. -/
theorem c9_photo_count_bounds_witness :
    photoCount
      ⟨[⟨"p1", "u", "Rex", 3, "woof", none⟩],
       [⟨"a", "p1", "u1", 0⟩, ⟨"b", "p1", "u2", 1⟩, ⟨"n", "p1", "u3", 2⟩], [], []⟩
      (PhotoRow.mk "n" "p1" "u3" 2).profile_id ≤ MAX_PHOTOS ∧
    upload_photo
      ⟨[⟨"p1", "u", "Rex", 3, "woof", none⟩],
       [⟨"a", "p1", "u1", 0⟩, ⟨"b", "p1", "u2", 1⟩, ⟨"c", "p1", "u3", 2⟩,
        ⟨"d", "p1", "u4", 3⟩, ⟨"e", "p1", "u5", 4⟩, ⟨"f", "p1", "u6", 5⟩], [], []⟩
      "u" "g" "u7" true = .error .invalidPhotoCount ∧
    MIN_PHOTOS ≤ photoCount
      ⟨[⟨"p1", "u", "Rex", 3, "woof", none⟩],
       [⟨"a", "p1", "u1", 0⟩, ⟨"b", "p1", "u2", 1⟩], [], []⟩
      (ProfileRow.mk "p1" "u" "Rex" 3 "woof" none).id ∧
    delete_photo
      ⟨[⟨"p1", "u", "Rex", 3, "woof", none⟩],
       [⟨"a", "p1", "u1", 0⟩, ⟨"b", "p1", "u2", 1⟩], [], []⟩
      "u" "b" = .error .invalidPhotoCount :=
  ⟨c9_photo_count_bounds.1
      ⟨[⟨"p1", "u", "Rex", 3, "woof", none⟩],
       [⟨"a", "p1", "u1", 0⟩, ⟨"b", "p1", "u2", 1⟩], [], []⟩
      "u" "n" "u3" true _ _ (by decide),
   c9_photo_count_bounds.2.1
      ⟨[⟨"p1", "u", "Rex", 3, "woof", none⟩],
       [⟨"a", "p1", "u1", 0⟩, ⟨"b", "p1", "u2", 1⟩, ⟨"c", "p1", "u3", 2⟩,
        ⟨"d", "p1", "u4", 3⟩, ⟨"e", "p1", "u5", 4⟩, ⟨"f", "p1", "u6", 5⟩], [], []⟩
      "u" "g" "u7" true ⟨"p1", "u", "Rex", 3, "woof", none⟩ (by decide) (by decide),
   c9_photo_count_bounds.2.2.1
      ⟨[⟨"p1", "u", "Rex", 3, "woof", none⟩],
       [⟨"a", "p1", "u1", 0⟩, ⟨"b", "p1", "u2", 1⟩, ⟨"c", "p1", "u3", 2⟩], [], []⟩
      "u" "c" ⟨"p1", "u", "Rex", 3, "woof", none⟩ _ (by decide) (by decide),
   c9_photo_count_bounds.2.2.2
      ⟨[⟨"p1", "u", "Rex", 3, "woof", none⟩],
       [⟨"a", "p1", "u1", 0⟩, ⟨"b", "p1", "u2", 1⟩], [], []⟩
      "u" "b" ⟨"p1", "u", "Rex", 3, "woof", none⟩ ⟨"b", "p1", "u2", 1⟩
      (by decide) (by decide) (by decide)⟩

/-- C10: `login` fails exactly when no user with the email exists or the
password does not verify against the stored hash; in both cases it raises
`InvalidCredentialsError` with the identical message "Invalid email or
password", so the caller cannot distinguish an unregistered email from a
wrong password; otherwise it returns an access token. -/
theorem c10_login_uniform_error (verifyPassword : String → String → Bool)
    (createToken : String → String) (expireMinutes : Int)
    (users : List UserRow) (email password : String) :
    ((∃ e, login verifyPassword createToken expireMinutes users email password =
        .error e) ↔
      (users.find? (fun u => u.email == email) = none ∨
        ∃ u, users.find? (fun u => u.email == email) = some u ∧
          verifyPassword password u.password_hash = false)) ∧
    (∀ e, login verifyPassword createToken expireMinutes users email password =
        .error e → e = ⟨.invalidCredentials, "Invalid email or password"⟩) ∧
    (∀ u, users.find? (fun u => u.email == email) = some u →
      verifyPassword password u.password_hash = true →
      login verifyPassword createToken expireMinutes users email password =
        .ok ⟨createToken u.id, "bearer", expireMinutes * 60⟩) := by
  rcases hfind : users.find? (fun u => u.email == email) with _ | user
  · have hlogin : login verifyPassword createToken expireMinutes users email password =
        .error ⟨.invalidCredentials, "Invalid email or password"⟩ := by
      simp [login, hfind]
    refine ⟨iff_of_true ⟨_, hlogin⟩ (Or.inl hfind), ?_, ?_⟩
    · intro e he
      rw [hlogin] at he
      exact (Except.error.inj he).symm
    · intro u hu
      rw [hfind] at hu
      exact Option.noConfusion hu
  · rcases hv : verifyPassword password user.password_hash with _ | _
    · have hlogin : login verifyPassword createToken expireMinutes users email password =
          .error ⟨.invalidCredentials, "Invalid email or password"⟩ := by
        simp [login, hfind, hv]
      refine ⟨iff_of_true ⟨_, hlogin⟩ (Or.inr ⟨user, hfind, hv⟩), ?_, ?_⟩
      · intro e he
        rw [hlogin] at he
        exact (Except.error.inj he).symm
      · intro u hu hvu
        rw [hfind] at hu
        have : u = user := (Option.some.inj hu).symm
        subst this
        rw [hvu] at hv
        exact absurd hv (by simp)
    · have hlogin : login verifyPassword createToken expireMinutes users email password =
          .ok ⟨createToken user.id, "bearer", expireMinutes * 60⟩ := by
        simp [login, hfind, hv]
      refine ⟨iff_of_false ?_ ?_, ?_, ?_⟩
      · rintro ⟨e, he⟩
        rw [hlogin] at he
        exact Except.noConfusion he
      · rintro (hnone | ⟨u, hu, hvu⟩)
        · rw [hfind] at hnone
          exact Option.noConfusion hnone
        · rw [hfind] at hu
          have : u = user := (Option.some.inj hu).symm
          subst this
          rw [hvu] at hv
          exact absurd hv (by simp)
      · intro e he
        rw [hlogin] at he
        exact absurd he (by simp)
      · intro u hu hvu
        rw [hfind] at hu
        have : u = user := (Option.some.inj hu).symm
        subst this
        exact hlogin

/-- Witness for C10: with one registered user, a wrong password and a
missing email both produce exactly
`InvalidCredentialsError("Invalid email or password")`, and the right
password logs in. -/
theorem c10_login_uniform_error_witness :
    ((⟨.invalidCredentials, "Invalid email or password"⟩ : AuthError) =
      ⟨.invalidCredentials, "Invalid email or password"⟩) ∧
    login (fun p h => p == h) (fun i => i) 30 [⟨"id1", "a@b", "secret"⟩]
      "a@b" "secret" = .ok ⟨(fun i : String => i) "id1", "bearer", 30 * 60⟩ :=
  ⟨(c10_login_uniform_error (fun p h => p == h) (fun i => i) 30
      [⟨"id1", "a@b", "secret"⟩] "a@b" "wrong").2.1
      ⟨.invalidCredentials, "Invalid email or password"⟩ rfl,
   (c10_login_uniform_error (fun p h => p == h) (fun i => i) 30
      [⟨"id1", "a@b", "secret"⟩] "a@b" "secret").2.2
      ⟨"id1", "a@b", "secret"⟩ rfl rfl⟩

end DatingApp
